import Mathlib

/-!
Keba wallbox integration plugin

A shallow embedding of `keba/integrationpluginkeba.cpp` (class `IntegrationPluginKeba`)
and theorems about its signal handlers.

Modelling conventions

* Objects reached through pointers are addressed by natural-number handles: a `Thing *` by its
  `ThingId`, a `KeContact *` by a `KebaId`, an info object by an `InfoId`.  Handle `0` is the
  null value (`nullptr`, default-constructed `ThingId`).
* A `QHash<K, V>` is an association list with at most the first binding of a key visible.
* What a handler does to the outside world (events emitted, `finish` calls on info objects)
  is appended to a log kept in the plugin state.
* `float`/`double` report fields are exact rationals.
* Declarations of headers that are not part of the sources at hand (`kecontact.h`,
  `kebaproductinfo.h`, `plugininfo.h`, Qt) enter through the record `Env`.
-/

namespace Keba

/-! ## Host data model -/

/-- Handle of a `Thing` object, equal to its `id()`; `0` is the null id. -/
abbrev ThingId := Nat

/-- Handle of a `KeContact` session object; `0` is `nullptr`. -/
abbrev KebaId := Nat

/-- Handle of a `ThingSetupInfo` / `ThingActionInfo` / `ThingDiscoveryInfo` object. -/
abbrev InfoId := Nat

/-- A `QVariant` restricted to the payload types this plugin stores. -/
inductive Variant where
  | invalid
  | bool (b : Bool)
  | int (i : Int)
  | uint (n : Nat)
  | double (q : ℚ)
  | string (s : String)
deriving DecidableEq

/-- Thing classes: the wallbox class of this plugin, or any other class id. -/
inductive ThingClassId where
  | wallboxThingClassId
  | otherThingClassId (n : Nat)
deriving DecidableEq

/-- The `wallboxThing…ParamTypeId` constants. -/
inductive ParamTypeId where
  | wallboxThingMacAddressParamTypeId
  | wallboxThingIpAddressParamTypeId
  | wallboxThingModelParamTypeId
  | wallboxThingSerialNumberParamTypeId
deriving DecidableEq

/-- The `wallbox…StateTypeId` constants used by the plugin. -/
inductive StateTypeId where
  | wallboxConnectedStateTypeId
  | wallboxFirmwareStateTypeId
  | wallboxUptimeStateTypeId
  | wallboxActivityStateTypeId
  | wallboxChargingStateTypeId
  | wallboxPlugStateStateTypeId
  | wallboxPluggedInStateTypeId
  | wallboxPowerStateTypeId
  | wallboxError1StateTypeId
  | wallboxError2StateTypeId
  | wallboxSystemEnabledStateTypeId
  | wallboxMaxChargingCurrentStateTypeId
  | wallboxMaxChargingCurrentPercentStateTypeId
  | wallboxMaxChargingCurrentHardwareStateTypeId
  | wallboxOutputX2StateTypeId
  | wallboxInputStateTypeId
  | wallboxCurrentPhaseAStateTypeId
  | wallboxCurrentPhaseBStateTypeId
  | wallboxCurrentPhaseCStateTypeId
  | wallboxVoltagePhaseAStateTypeId
  | wallboxVoltagePhaseBStateTypeId
  | wallboxVoltagePhaseCStateTypeId
  | wallboxCurrentPowerStateTypeId
  | wallboxSessionEnergyStateTypeId
  | wallboxPowerFactorStateTypeId
  | wallboxTotalEnergyConsumedStateTypeId
  | wallboxPhaseCountStateTypeId
  | wallboxSessionTimeStateTypeId
deriving DecidableEq

/-- The `Thing::ThingError` values the plugin reports. -/
inductive ThingError where
  | ThingErrorNoError
  | ThingErrorHardwareFailure
  | ThingErrorHardwareNotAvailable
  | ThingErrorThingInUse
  | ThingErrorThingClassNotFound
  | ThingErrorActionTypeNotFound
deriving DecidableEq

/-- Event types emitted by the plugin. -/
inductive EventTypeId where
  | wallboxChargingSessionFinishedEventTypeId
deriving DecidableEq

/-- Parameter types of the charging-session-finished event. -/
inductive EventParamTypeId where
  | wallboxChargingSessionFinishedEventEnergyParamTypeId
  | wallboxChargingSessionFinishedEventDurationParamTypeId
  | wallboxChargingSessionFinishedEventIdParamTypeId
deriving DecidableEq

/-- An `Event`: type, addressee and parameter list (in insertion order). -/
structure Event where
  eventTypeId : EventTypeId
  thingId : ThingId
  params : List (EventParamTypeId × Variant)
deriving DecidableEq

/-- Value of the first parameter of the given type, `Variant.invalid` when there is none. -/
def Event.paramValue (e : Event) (p : EventParamTypeId) : Variant :=
  match e.params.find? (fun x => decide (x.1 = p)) with
  | some x => x.2
  | none => Variant.invalid

/-- The mutable part of a `Thing`: its class, its parameters (all four wallbox parameters are
strings: they are read through `toString()` and written from `QString`s), its state values and
the per-state maximum values. -/
structure Thing where
  thingClassId : ThingClassId
  params : ParamTypeId → String
  states : StateTypeId → Variant
  stateMax : StateTypeId → Variant

/-! ## Declarations taken from headers outside the sources -/

/-- Product series of `KebaProductInfo::Series`; `SeriesOther` collects every enumerator that
the plugin does not name (the `default:` label of its `switch`). -/
inductive Series where
  | SeriesA
  | SeriesB
  | SeriesC
  | SeriesXWlan
  | SeriesXWlan3G
  | SeriesXWlan4G
  | SeriesX3G
  | SeriesX4G
  | SeriesOther (n : Nat)
deriving DecidableEq

/-- What the plugin reads from a `KebaProductInfo` object. -/
structure KebaProductInfo where
  isValid : Bool
  series : Series
  model : String
  germanEdition : Bool
deriving DecidableEq

/-- Everything the plugin uses but does not define: enumerator values of `KeContact::State`,
`KeContact::PlugState` and `KeContact::DipSwitchOne`, the product-code parser
(`KebaProductInfo` constructor), `qRound`, and the state-type maximum of a thing class. -/
structure Env where
  StateStarting : Int
  StateNotReady : Int
  StateReady : Int
  StateCharging : Int
  StateError : Int
  StateAuthorizationRejected : Int
  PlugStateUnplugged : Int
  PlugStatePluggedOnChargingStation : Int
  PlugStatePluggedOnChargingStationAndPluggedOnEV : Int
  PlugStatePluggedOnChargingStationAndPlugLocked : Int
  PlugStatePluggedOnChargingStationAndPlugLockedAndPluggedOnEV : Int
  DipSwitchOneSmartHomeInterface : Nat
  productInformation : String → KebaProductInfo
  qRound : ℚ → Int
  stateTypeMaxValue : ThingClassId → StateTypeId → Variant

/-! ## Reports (`KeContact::ReportOne` … `KeContact::Report1XX`) -/

/-- Report 1: identity of the wallbox. -/
structure ReportOne where
  firmware : String
  serialNumber : String
  product : String
  seconds : Int
  comModule : Bool
  dipSw1 : Nat
  dipSw2 : Nat

/-- Report 2: charging state and limits. -/
structure ReportTwo where
  state : Int
  error1 : Int
  error2 : Int
  plugState : Int
  enableSys : Bool
  enableUser : Bool
  maxCurrent : ℚ
  maxCurrentPercentage : ℚ
  currentHardwareLimitation : ℚ
  currentUser : ℚ
  currentFailsafe : ℚ
  timeoutFailsafe : Int
  currTimer : Int
  timeoutCt : Int
  output : Bool
  input : Bool
  serialNumber : String
  seconds : Int

/-- Report 3: electrical measurements. -/
structure ReportThree where
  currentPhase1 : ℚ
  currentPhase2 : ℚ
  currentPhase3 : ℚ
  voltagePhase1 : Int
  voltagePhase2 : Int
  voltagePhase3 : Int
  power : ℚ
  powerFactor : ℚ
  energySession : ℚ
  energyTotal : ℚ
  serialNumber : String
  seconds : Int

/-- Report 100 / 101: a charging session. -/
structure Report1XX where
  sessionId : Int
  currHW : ℚ
  startEnergy : ℚ
  presentEnergy : ℚ
  startTime : Int
  endTime : Int
  stopReason : Int
  rfidTag : String
  rfidClass : String
  serialNumber : String
  seconds : Int

/-! ## Actions, session commands, discovery results -/

/-- Identifier of a command request (`QUuid`); `0` is the null uuid. -/
abbrev RequestId := Nat

/-- Handle of a `KebaDiscovery` object; `0` is `nullptr`. -/
abbrev DiscoveryId := Nat

/-- The `wallbox…ActionTypeId` constants handled by `executeAction`, or any other id. -/
inductive ActionTypeId where
  | wallboxMaxChargingCurrentActionTypeId
  | wallboxPowerActionTypeId
  | wallboxDisplayActionTypeId
  | wallboxOutputX2ActionTypeId
  | wallboxFailsafeModeActionTypeId
  | otherActionTypeId (n : Nat)
deriving DecidableEq

/-- An `Action` as the plugin reads it: its type and the converted parameter values
(`maxChargingCurrent` is the `toUInt()` of the max-charging-current parameter, `power`,
`outputX2` and `failsafeMode` the `toBool()` and `message` the `toByteArray()` of theirs). -/
structure Action where
  actionTypeId : ActionTypeId
  maxChargingCurrent : Nat
  power : Bool
  message : String
  outputX2 : Bool
  failsafeMode : Bool
deriving DecidableEq

/-- A `ThingActionInfo`: its handle, its thing and its action. -/
structure ActionInfo where
  id : InfoId
  thing : ThingId
  action : Action
deriving DecidableEq

instance : Inhabited ActionInfo :=
  ⟨{ id := 0, thing := 0,
     action := { actionTypeId := ActionTypeId.otherActionTypeId 0, maxChargingCurrent := 0,
                 power := false, message := "", outputX2 := false, failsafeMode := false } }⟩

/-- The `KeContact` methods the plugin calls on a session. -/
inductive KeContactCall where
  | getReport1
  | getReport2
  | getReport3
  | getReport1XX (reportNumber : Int)
  | setAddress (address : String)
  | setMaxAmpereGeneral (milliAmpere : Int)
  | enableOutput (state : Bool)
  | displayMessage (message : String)
  | setOutputX2 (state : Bool)
  | setFailsafe (timeout : Int) (current : Int) (save : Bool)
  | deleteLater
deriving DecidableEq

/-- The values of `KeContact::BroadcastType` named by the plugin; `BroadcastTypeOther` stands
for any value that none of the `case` labels of `onBroadcastReceived` matches. -/
inductive BroadcastType where
  | BroadcastTypePlug
  | BroadcastTypeInput
  | BroadcastTypeEPres
  | BroadcastTypeState
  | BroadcastTypeMaxCurr
  | BroadcastTypeEnableSys
  | BroadcastTypeOther (n : Nat)
deriving DecidableEq

/-- A `KebaDiscovery::KebaDiscoveryResult`; `address` and `macAddress` are the texts of
`networkDeviceInfo.address()` and `networkDeviceInfo.macAddress()`. -/
structure KebaDiscoveryResult where
  address : String
  macAddress : String
  product : String
  serialNumber : String
deriving DecidableEq

/-- A `ThingDescriptor`; `thingId = 0` when `setThingId` was not called. -/
structure ThingDescriptor where
  thingClassId : ThingClassId
  title : String
  description : String
  thingId : ThingId
  params : List (ParamTypeId × String)
deriving DecidableEq

/-! ## Plugin state -/

/-- The members of `IntegrationPluginKeba` together with the host objects it reaches and the
log of its outward effects.

* `things` is the store of `Thing` objects, `myThings` the ids `myThings()` returns, in order;
* `m_kebaDevices` and `m_lastSessionId` are the two `QHash` members;
* `emitted` lists the events passed to `emitEvent`, oldest first;
* `finished` lists the `finish` calls made on info objects, oldest first;
* `m_asyncActions` is the `QHash` of pending actions by request id;
* `m_kebaDataLayer`, `m_updateTimer` and `m_reconnectTimer` tell whether the pointer member is
  non-null, `m_runningDiscovery` is the handle of the running reconciliation discovery;
* `kebaAddress` and `kebaReachable` are `address()` and `reachable()` of the `KeContact`
  objects, `kebaCount` the number of `KeContact` objects constructed so far (the next one gets
  handle `kebaCount + 1`), `calls` the methods invoked on sessions, oldest first;
* `discoveryCount` counts the `KebaDiscovery` objects constructed so far, `ownDiscoveries` are
  the live ones whose parent is the plugin, `startedDiscoveries` those on which
  `startDiscovery()` was called;
* `descriptors` lists the `addThingDescriptor` calls made on discovery infos, oldest first. -/
structure Plugin where
  things : ThingId → Thing
  myThings : List ThingId
  m_kebaDevices : List (ThingId × KebaId)
  m_lastSessionId : List (ThingId × Int)
  emitted : List Event
  finished : List (InfoId × ThingError)
  m_asyncActions : List (RequestId × ActionInfo)
  m_kebaDataLayer : Bool
  m_updateTimer : Bool
  m_reconnectTimer : Bool
  m_runningDiscovery : DiscoveryId
  kebaAddress : KebaId → String
  kebaReachable : KebaId → Bool
  kebaCount : Nat
  calls : List (KebaId × KeContactCall)
  discoveryCount : Nat
  ownDiscoveries : List DiscoveryId
  startedDiscoveries : List DiscoveryId
  descriptors : List (InfoId × ThingDescriptor)

/-- The method `QHash::contains`. -/
def hashContains {V : Type} (h : List (ThingId × V)) (k : ThingId) : Bool :=
  h.any (fun p => decide (p.1 = k))

/-- The method `QHash::value`: the value bound to `k`, the default value when there is none. -/
def hashValue {V : Type} (h : List (ThingId × V)) (k : ThingId) (dflt : V) : V :=
  match h.find? (fun p => decide (p.1 = k)) with
  | some p => p.2
  | none => dflt

/-- The method `QHash::insert`: binds `k` to `v`, replacing an earlier binding of `k`. -/
def hashInsert {V : Type} (h : List (ThingId × V)) (k : ThingId) (v : V) : List (ThingId × V) :=
  (k, v) :: h.filter (fun p => !decide (p.1 = k))

/-- The method `QHash::key`: a key bound to `v`, the default-constructed key `0` when there is
none. -/
def hashKey (h : List (ThingId × KebaId)) (v : KebaId) : ThingId :=
  match h.find? (fun p => decide (p.2 = v)) with
  | some p => p.1
  | none => 0

/-- The call `myThings().findById(id)`: the thing with that id, `none` for `nullptr`. -/
def Plugin.findById (s : Plugin) (id : ThingId) : Option ThingId :=
  if id ∈ s.myThings then some id else none

/-- The lookup that opens every report handler:
`myThings().findById(m_kebaDevices.key(keba))` for the sending session `keba`. -/
def Plugin.senderThing (s : Plugin) (keba : KebaId) : Option ThingId :=
  s.findById (hashKey s.m_kebaDevices keba)

/-- The call `thing->paramValue(p).toString()`. -/
def Plugin.paramValue (s : Plugin) (thing : ThingId) (p : ParamTypeId) : String :=
  (s.things thing).params p

/-- The call `thing->stateValue(st)`. -/
def Plugin.stateValue (s : Plugin) (thing : ThingId) (st : StateTypeId) : Variant :=
  (s.things thing).states st

/-- The call `thing->setParamValue(p, v)`. -/
def Plugin.setParamValue (s : Plugin) (thing : ThingId) (p : ParamTypeId) (v : String) : Plugin :=
  { s with things := fun i =>
      if i = thing then
        { s.things i with params := fun q => if q = p then v else (s.things i).params q }
      else s.things i }

/-- The call `thing->setStateValue(st, v)`. -/
def Plugin.setStateValue (s : Plugin) (thing : ThingId) (st : StateTypeId) (v : Variant) : Plugin :=
  { s with things := fun i =>
      if i = thing then
        { s.things i with states := fun q => if q = st then v else (s.things i).states q }
      else s.things i }

/-- The call `thing->setStateMaxValue(st, v)`. -/
def Plugin.setStateMaxValue (s : Plugin) (thing : ThingId) (st : StateTypeId) (v : Variant) : Plugin :=
  { s with things := fun i =>
      if i = thing then
        { s.things i with stateMax := fun q => if q = st then v else (s.things i).stateMax q }
      else s.things i }

/-- The call `info->finish(status)`. -/
def Plugin.finish (s : Plugin) (info : InfoId) (status : ThingError) : Plugin :=
  { s with finished := s.finished ++ [(info, status)] }

/-- The call `emit emitEvent(event)`. -/
def Plugin.emitEvent (s : Plugin) (event : Event) : Plugin :=
  { s with emitted := s.emitted ++ [event] }

open StateTypeId ParamTypeId ThingError EventTypeId EventParamTypeId Series ThingClassId

/-! ## `setDeviceState` and `setDevicePlugState` -/

/-- The method `IntegrationPluginKeba::setDeviceState`: a `switch` over the six named states
(no `default:` label), then the charging flag. -/
def setDeviceState (E : Env) (thing : ThingId) (state : Int) (s : Plugin) : Plugin :=
  let s1 :=
    if state = E.StateStarting then
      s.setStateValue thing wallboxActivityStateTypeId (Variant.string "Starting")
    else if state = E.StateNotReady then
      s.setStateValue thing wallboxActivityStateTypeId (Variant.string "Not ready for charging")
    else if state = E.StateReady then
      s.setStateValue thing wallboxActivityStateTypeId (Variant.string "Ready for charging")
    else if state = E.StateCharging then
      s.setStateValue thing wallboxActivityStateTypeId (Variant.string "Charging")
    else if state = E.StateError then
      s.setStateValue thing wallboxActivityStateTypeId (Variant.string "Error")
    else if state = E.StateAuthorizationRejected then
      s.setStateValue thing wallboxActivityStateTypeId (Variant.string "Authorization rejected")
    else s
  s1.setStateValue thing wallboxChargingStateTypeId (Variant.bool (decide (state = E.StateCharging)))

/-- The method `IntegrationPluginKeba::setDevicePlugState`: a `switch` over the five named plug
states (no `default:` label), then the plugged-in flag from `plugState >= 5`. -/
def setDevicePlugState (E : Env) (thing : ThingId) (plugState : Int) (s : Plugin) : Plugin :=
  let s1 :=
    if plugState = E.PlugStateUnplugged then
      s.setStateValue thing wallboxPlugStateStateTypeId (Variant.string "Unplugged")
    else if plugState = E.PlugStatePluggedOnChargingStation then
      s.setStateValue thing wallboxPlugStateStateTypeId (Variant.string "Plugged in charging station")
    else if plugState = E.PlugStatePluggedOnChargingStationAndPluggedOnEV then
      s.setStateValue thing wallboxPlugStateStateTypeId (Variant.string "Plugged in on EV")
    else if plugState = E.PlugStatePluggedOnChargingStationAndPlugLocked then
      s.setStateValue thing wallboxPlugStateStateTypeId (Variant.string "Plugged in and locked")
    else if plugState = E.PlugStatePluggedOnChargingStationAndPlugLockedAndPluggedOnEV then
      s.setStateValue thing wallboxPlugStateStateTypeId (Variant.string "Plugged in on EV and locked")
    else s
  if plugState ≥ 5 then
    s1.setStateValue thing wallboxPluggedInStateTypeId (Variant.bool true)
  else
    s1.setStateValue thing wallboxPluggedInStateTypeId (Variant.bool false)

/-! ## Report handlers -/

/-- The slot `IntegrationPluginKeba::onReportTwoReceived`, for the report `reportTwo` sent by the
session `keba` (the `sender()`). -/
def onReportTwoReceived (E : Env) (keba : KebaId) (reportTwo : ReportTwo) (s : Plugin) : Plugin :=
  match s.senderThing keba with
  | none => s
  | some thing =>
    if reportTwo.serialNumber = s.paramValue thing wallboxThingSerialNumberParamTypeId then
      let s := setDeviceState E thing reportTwo.state s
      let s := setDevicePlugState E thing reportTwo.plugState s
      let s := s.setStateValue thing wallboxPowerStateTypeId (Variant.bool reportTwo.enableUser)
      let s := s.setStateValue thing wallboxError1StateTypeId (Variant.int reportTwo.error1)
      let s := s.setStateValue thing wallboxError2StateTypeId (Variant.int reportTwo.error2)
      let s := s.setStateValue thing wallboxSystemEnabledStateTypeId (Variant.bool reportTwo.enableSys)
      let s := s.setStateValue thing wallboxMaxChargingCurrentStateTypeId
        (Variant.int (E.qRound reportTwo.currentUser))
      let s := s.setStateValue thing wallboxMaxChargingCurrentPercentStateTypeId
        (Variant.double reportTwo.maxCurrentPercentage)
      let s := s.setStateValue thing wallboxMaxChargingCurrentHardwareStateTypeId
        (Variant.double reportTwo.currentHardwareLimitation)
      let s :=
        if reportTwo.currentHardwareLimitation > 0 then
          s.setStateMaxValue thing wallboxMaxChargingCurrentStateTypeId
            (Variant.double reportTwo.currentHardwareLimitation)
        else
          s.setStateMaxValue thing wallboxMaxChargingCurrentStateTypeId
            (E.stateTypeMaxValue (s.things thing).thingClassId wallboxMaxChargingCurrentStateTypeId)
      let s := s.setStateValue thing wallboxOutputX2StateTypeId (Variant.bool reportTwo.output)
      let s := s.setStateValue thing wallboxInputStateTypeId (Variant.bool reportTwo.input)
      s.setStateValue thing wallboxUptimeStateTypeId (Variant.int (Int.tdiv reportTwo.seconds 60))
    else s

/-- The slot `IntegrationPluginKeba::onReportThreeReceived`. -/
def onReportThreeReceived (keba : KebaId) (reportThree : ReportThree) (s : Plugin) : Plugin :=
  match s.senderThing keba with
  | none => s
  | some thing =>
    if reportThree.serialNumber = s.paramValue thing wallboxThingSerialNumberParamTypeId then
      let s := s.setStateValue thing wallboxCurrentPhaseAStateTypeId (Variant.double reportThree.currentPhase1)
      let s := s.setStateValue thing wallboxCurrentPhaseBStateTypeId (Variant.double reportThree.currentPhase2)
      let s := s.setStateValue thing wallboxCurrentPhaseCStateTypeId (Variant.double reportThree.currentPhase3)
      let s := s.setStateValue thing wallboxVoltagePhaseAStateTypeId (Variant.int reportThree.voltagePhase1)
      let s := s.setStateValue thing wallboxVoltagePhaseBStateTypeId (Variant.int reportThree.voltagePhase2)
      let s := s.setStateValue thing wallboxVoltagePhaseCStateTypeId (Variant.int reportThree.voltagePhase3)
      let s := s.setStateValue thing wallboxCurrentPowerStateTypeId (Variant.double reportThree.power)
      let s := s.setStateValue thing wallboxSessionEnergyStateTypeId (Variant.double reportThree.energySession)
      let s := s.setStateValue thing wallboxPowerFactorStateTypeId (Variant.double reportThree.powerFactor)
      let s := s.setStateValue thing wallboxTotalEnergyConsumedStateTypeId (Variant.double reportThree.energyTotal)
      if ¬ (reportThree.currentPhase1 = 0 ∧ reportThree.currentPhase2 = 0 ∧ reportThree.currentPhase3 = 0) then
        let phaseCount : Nat := 0
        let phaseCount := if reportThree.currentPhase1 ≠ 0 then phaseCount + 1 else phaseCount
        let phaseCount := if reportThree.currentPhase2 ≠ 0 then phaseCount + 1 else phaseCount
        let phaseCount := if reportThree.currentPhase3 ≠ 0 then phaseCount + 1 else phaseCount
        s.setStateValue thing wallboxPhaseCountStateTypeId (Variant.uint phaseCount)
      else s
    else s

/-- The charging-session-finished event built in `onReport1XXReceived`: energy from
`report.presentEnergy`, duration from `report.endTime`, and an id parameter without value. -/
def sessionFinishedEvent (thing : ThingId) (report : Report1XX) : Event :=
  { eventTypeId := wallboxChargingSessionFinishedEventTypeId,
    thingId := thing,
    params :=
      [(wallboxChargingSessionFinishedEventEnergyParamTypeId, Variant.double report.presentEnergy),
       (wallboxChargingSessionFinishedEventDurationParamTypeId, Variant.int report.endTime),
       (wallboxChargingSessionFinishedEventIdParamTypeId, Variant.invalid)] }

/-- The slot `IntegrationPluginKeba::onReport1XXReceived`. -/
def onReport1XXReceived (keba : KebaId) (reportNumber : Int) (report : Report1XX) (s : Plugin) : Plugin :=
  match s.senderThing keba with
  | none => s
  | some thing =>
    if reportNumber = 100 then
      if report.endTime = 0 then
        let duration : ℚ := ((report.seconds - report.startTime : Int) : ℚ) / 60
        s.setStateValue thing wallboxSessionTimeStateTypeId (Variant.double duration)
      else s
    else if reportNumber = 101 then
      if report.serialNumber = s.paramValue thing wallboxThingSerialNumberParamTypeId then
        if ¬ hashContains s.m_lastSessionId thing then
          { s with m_lastSessionId := hashInsert s.m_lastSessionId thing report.sessionId }
        else
          if hashValue s.m_lastSessionId thing 0 ≠ report.sessionId then
            s.emitEvent (sessionFinishedEvent thing report)
          else s
      else s
    else s

/-! ## The `reportOneReceived` handler installed by `setupThing` -/

/-- The method `QFlags::testFlag`. -/
def testFlag (i flag : Nat) : Bool :=
  (i &&& flag == flag) && (flag != 0 || i == flag)

/-- The value of the local `supported` after the `switch` over `productInformation.series()`. -/
def supported (productInformation : KebaProductInfo) : Bool :=
  match productInformation.series with
  | SeriesA => productInformation.model == "P30" && productInformation.germanEdition
  | SeriesB => productInformation.model == "P30" && productInformation.germanEdition
  | SeriesC => true
  | SeriesXWlan => true
  | SeriesXWlan3G => true
  | SeriesXWlan4G => true
  | SeriesX3G => true
  | SeriesX4G => true
  | SeriesOther _ => false

/-- The last statements of the handler, reached when no check failed: register the session,
finish the setup without error and publish connected flag, firmware and uptime. -/
def registerSession (info : InfoId) (thing : ThingId) (keba : KebaId) (report : ReportOne)
    (s : Plugin) : Plugin :=
  let s := { s with m_kebaDevices := hashInsert s.m_kebaDevices thing keba }
  let s := s.finish info ThingErrorNoError
  let s := s.setStateValue thing wallboxConnectedStateTypeId (Variant.bool true)
  let s := s.setStateValue thing wallboxFirmwareStateTypeId (Variant.string report.firmware)
  s.setStateValue thing wallboxUptimeStateTypeId (Variant.int (Int.tdiv report.seconds 60))

/-- The lambda connected to `KeContact::reportOneReceived` in `setupThing`; it captures the setup
info `info` (whose thing is `thing`) and the new session `keba`. -/
def reportOneReceived (E : Env) (info : InfoId) (thing : ThingId) (keba : KebaId)
    (report : ReportOne) (s : Plugin) : Plugin :=
  let productInformation := E.productInformation report.product
  let s :=
    if s.paramValue thing wallboxThingSerialNumberParamTypeId = "" then
      s.setParamValue thing wallboxThingSerialNumberParamTypeId report.serialNumber
    else s
  let s :=
    if s.paramValue thing wallboxThingModelParamTypeId = "" then
      s.setParamValue thing wallboxThingModelParamTypeId report.product
    else s
  if ¬ testFlag report.dipSw1 E.DipSwitchOneSmartHomeInterface then
    s.finish info ThingErrorHardwareFailure
  else if productInformation.isValid then
    if ¬ supported productInformation then
      s.finish info ThingErrorHardwareFailure
    else registerSession info thing keba report s
  else registerSession info thing keba report s

/-- The plugin after the two parameter updates that open the handler. -/
def afterParamUpdate (thing : ThingId) (report : ReportOne) (s : Plugin) : Plugin :=
  let s :=
    if s.paramValue thing wallboxThingSerialNumberParamTypeId = "" then
      s.setParamValue thing wallboxThingSerialNumberParamTypeId report.serialNumber
    else s
  if s.paramValue thing wallboxThingModelParamTypeId = "" then
    s.setParamValue thing wallboxThingModelParamTypeId report.product
  else s

/-- The supported models in the words of the specification: every C, X-WLAN, X-WLAN-3G,
X-WLAN-4G, X-3G and X-4G series, and the A and B series as model "P30" in the German edition. -/
def specSupported (p : KebaProductInfo) : Prop :=
  p.series = SeriesC ∨ p.series = SeriesXWlan ∨ p.series = SeriesXWlan3G ∨
  p.series = SeriesXWlan4G ∨ p.series = SeriesX3G ∨ p.series = SeriesX4G ∨
  ((p.series = SeriesA ∨ p.series = SeriesB) ∧ p.model = "P30" ∧ p.germanEdition = true)

instance specSupportedDecidable (p : KebaProductInfo) : Decidable (specSupported p) := by
  unfold specSupported
  infer_instance

/-- The number of session transitions of a sequence of session ids in the words of the
specification: the positions whose id differs from the id right before. -/
def sessionTransitions : List Int → Nat
  | a :: b :: rest => (if a ≠ b then 1 else 0) + sessionTransitions (b :: rest)
  | _ => 0

/-! ## Runs of report 101 -/

/-- Delivery of a sequence of reports 101 from the session `keba`, in order. -/
def deliverReports101 (keba : KebaId) (reports : List Report1XX) (s : Plugin) : Plugin :=
  reports.foldl (fun acc report => onReport1XXReceived keba 101 report acc) s

/-! ## Network search and roster reconciliation -/

/-- The methods `QHash::remove` and (for the hash part) `QHash::take`: drops the binding
of `k`. -/
def hashRemove {V : Type} (h : List (Nat × V)) (k : Nat) : List (Nat × V) :=
  h.filter (fun p => !decide (p.1 = k))

/-- The call `myThings().filterByThingClassId(wallboxThingClassId)`. -/
def Plugin.wallboxThings (s : Plugin) : List ThingId :=
  s.myThings.filter (fun i => decide ((s.things i).thingClassId = wallboxThingClassId))

/-- A method call on the session `keba`, recorded in the call log. -/
def Plugin.call (s : Plugin) (keba : KebaId) (c : KeContactCall) : Plugin :=
  { s with calls := s.calls ++ [(keba, c)] }

/-- The call `keba->setAddress(address)`: recorded, and `address()` returns the new value
afterwards. -/
def Plugin.setAddress (s : Plugin) (keba : KebaId) (address : String) : Plugin :=
  { s with
    kebaAddress := fun k => if k = keba then address else s.kebaAddress k,
    calls := s.calls ++ [(keba, KeContactCall.setAddress address)] }

/-- The method `IntegrationPluginKeba::searchNetworkDevices` up to the `connect`: nothing when a
discovery is running or the data layer is missing, else a new `KebaDiscovery` owned by the
plugin becomes `m_runningDiscovery`.  The method does not call `startDiscovery()`. -/
def searchNetworkDevices (s : Plugin) : Plugin :=
  if s.m_runningDiscovery ≠ 0 then s
  else if s.m_kebaDataLayer = false then s
  else
    { s with
      discoveryCount := s.discoveryCount + 1,
      m_runningDiscovery := s.discoveryCount + 1,
      ownDiscoveries := s.ownDiscoveries ++ [s.discoveryCount + 1] }

/-- The body of the inner `foreach` of the `discoveryFinished` handler for one discovery result
and one existing thing; the flag tells whether the body ended in `break`. -/
def reconcileThing (result : KebaDiscoveryResult) (existingThing : ThingId) (s : Plugin) :
    Plugin × Bool :=
  if s.paramValue existingThing wallboxThingMacAddressParamTypeId = "" then
    if s.paramValue existingThing wallboxThingIpAddressParamTypeId = result.address then
      (s.setParamValue existingThing wallboxThingMacAddressParamTypeId result.macAddress, false)
    else (s, false)
  else if s.paramValue existingThing wallboxThingMacAddressParamTypeId = result.macAddress then
    if s.paramValue existingThing wallboxThingIpAddressParamTypeId ≠ result.address then
      let s := s.setParamValue existingThing wallboxThingIpAddressParamTypeId result.address
      let keba := hashValue s.m_kebaDevices existingThing 0
      if keba ≠ 0 then
        (((s.setAddress keba result.address).call keba KeContactCall.getReport2).call keba
          KeContactCall.getReport3, true)
      else (s, true)
    else (s, true)
  else (s, false)

/-- The inner `foreach` over the existing things for one discovery result. -/
def reconcileThings (result : KebaDiscoveryResult) : List ThingId → Plugin → Plugin
  | [], s => s
  | existingThing :: rest, s =>
    if (reconcileThing result existingThing s).2 then (reconcileThing result existingThing s).1
    else reconcileThings result rest (reconcileThing result existingThing s).1

/-- One round of the outer `foreach`: the inner loop over the wallbox things configured at
that moment. -/
def reconcileResult (s : Plugin) (result : KebaDiscoveryResult) : Plugin :=
  reconcileThings result s.wallboxThings s

/-- The outer `foreach` over the discovery results: the reconciliation pass. -/
def reconcile (results : List KebaDiscoveryResult) (s : Plugin) : Plugin :=
  results.foldl reconcileResult s

/-- The lambda connected to `KebaDiscovery::discoveryFinished` in `searchNetworkDevices`, run
with the results of `m_runningDiscovery`: the reconciliation pass, then the clean-up. -/
def searchDiscoveryFinished (results : List KebaDiscoveryResult) (s : Plugin) : Plugin :=
  let s := reconcile results s
  { s with
    ownDiscoveries := s.ownDiscoveries.filter (fun d => !decide (d = s.m_runningDiscovery)),
    m_runningDiscovery := 0 }

/-! ## `postSetupThing` and the two plugin timers -/

/-- The text test `thing->stateValue(wallboxActivityStateTypeId).toString() == "Charging"`:
among the payloads the plugin stores only the string "Charging" converts to that text. -/
def isChargingText (v : Variant) : Bool :=
  decide (v = Variant.string "Charging")

/-- The `foreach` of the `m_updateTimer` handler; the first thing without session ends the
handler (`return`). -/
def updateLoop : List ThingId → Plugin → Plugin
  | [], s => s
  | thing :: rest, s =>
    let keba := hashValue s.m_kebaDevices thing 0
    if keba = 0 then s
    else
      let s := s.call keba KeContactCall.getReport2
      let s := s.call keba KeContactCall.getReport3
      let s :=
        if isChargingText (s.stateValue thing wallboxActivityStateTypeId) then
          s.call keba (KeContactCall.getReport1XX 100)
        else s
      updateLoop rest s

/-- The lambda connected to the timeout of `m_updateTimer`. -/
def onUpdateTimeout (s : Plugin) : Plugin :=
  updateLoop s.wallboxThings s

/-- The `foreach` of the `m_reconnectTimer` handler.  The result is `none` when the handler
left through the `return` inside the loop, else the value of `startDiscoveryRequired` after the
loop. -/
def reconnectLoop (s : Plugin) : List ThingId → Bool → Option Bool
  | [], startDiscoveryRequired => some startDiscoveryRequired
  | thing :: rest, startDiscoveryRequired =>
    let keba := hashValue s.m_kebaDevices thing 0
    if keba = 0 then reconnectLoop s rest true
    else if s.kebaReachable keba = false then none
    else reconnectLoop s rest startDiscoveryRequired

/-- The lambda connected to the timeout of `m_reconnectTimer`. -/
def onReconnectTimeout (s : Plugin) : Plugin :=
  match reconnectLoop s s.wallboxThings false with
  | some true => searchNetworkDevices s
  | _ => s

/-- The method `IntegrationPluginKeba::postSetupThing`. -/
def postSetupThing (thing : ThingId) (s : Plugin) : Plugin :=
  if (s.things thing).thingClassId ≠ wallboxThingClassId then s
  else
    let keba := hashValue s.m_kebaDevices thing 0
    if keba = 0 then s
    else
      let s := s.call keba KeContactCall.getReport2
      let s := s.call keba KeContactCall.getReport3
      let s :=
        if s.paramValue thing wallboxThingMacAddressParamTypeId = "" ∨
            s.paramValue thing wallboxThingMacAddressParamTypeId = "00:00:00:00:00:00" then
          searchNetworkDevices s
        else s
      let s := if s.m_updateTimer = false then { s with m_updateTimer := true } else s
      if s.m_reconnectTimer = false then { s with m_reconnectTimer := true } else s

/-! ## `setupThing` -/

/-- The lambda connected to `KeContact::destroyed` in `setupThing` for the session of
`thing`. -/
def kebaDestroyed (thing : ThingId) (s : Plugin) : Plugin :=
  searchNetworkDevices { s with m_kebaDevices := hashRemove s.m_kebaDevices thing }

/-- The reconfigure block of `setupThing`: when the thing is already configured its session is
taken out of the roster and, if there was one, deleted (which runs `kebaDestroyed`). -/
def reconfigure (thing : ThingId) (s : Plugin) : Plugin :=
  if thing ∈ s.myThings then
    let keba := hashValue s.m_kebaDevices thing 0
    let s := { s with m_kebaDevices := hashRemove s.m_kebaDevices thing }
    if keba ≠ 0 then kebaDestroyed thing s else s
  else s

/-- The part of `setupThing` that follows the creation of the data layer: the check for a
session with the same address, else a new `KeContact` for the address, asked for report 1. -/
def setupSession (info : InfoId) (thing : ThingId) (s : Plugin) : Plugin :=
  let address := s.paramValue thing wallboxThingIpAddressParamTypeId
  if s.m_kebaDevices.any (fun p => decide (s.kebaAddress p.2 = address)) then
    s.finish info ThingErrorThingInUse
  else
    let keba := s.kebaCount + 1
    let s := { s with
      kebaCount := keba,
      kebaAddress := fun k => if k = keba then address else s.kebaAddress k }
    s.call keba KeContactCall.getReport1

/-- The method `IntegrationPluginKeba::setupThing`; `initOk` is the result of
`KeContactDataLayer::init()` should a data layer have to be created. -/
def setupThing (info : InfoId) (thing : ThingId) (initOk : Bool) (s : Plugin) : Plugin :=
  if (s.things thing).thingClassId = wallboxThingClassId then
    let s := reconfigure thing s
    if s.m_kebaDataLayer = false then
      if initOk = false then s.finish info ThingErrorHardwareNotAvailable
      else setupSession info thing { s with m_kebaDataLayer := true }
    else setupSession info thing s
  else s.finish info ThingErrorThingClassNotFound

/-! ## `executeAction` and `onCommandExecuted` -/

/-- Conversion of an unsigned 32-bit value to `int`. -/
def toInt32 (n : Nat) : Int :=
  if n % 2 ^ 32 < 2 ^ 31 then (n % 2 ^ 32 : Nat) else ((n % 2 ^ 32 : Nat) : Int) - 2 ^ 32

/-- The session method chosen by the `if`/`else if` chain of `executeAction` with its
arguments; `none` for an unhandled action type. -/
def actionCall (action : Action) : Option KeContactCall :=
  if action.actionTypeId = ActionTypeId.wallboxMaxChargingCurrentActionTypeId then
    let milliAmpere : Int := toInt32 (action.maxChargingCurrent * 1000)
    some (KeContactCall.setMaxAmpereGeneral milliAmpere)
  else if action.actionTypeId = ActionTypeId.wallboxPowerActionTypeId then
    some (KeContactCall.enableOutput action.power)
  else if action.actionTypeId = ActionTypeId.wallboxDisplayActionTypeId then
    some (KeContactCall.displayMessage action.message)
  else if action.actionTypeId = ActionTypeId.wallboxOutputX2ActionTypeId then
    some (KeContactCall.setOutputX2 action.outputX2)
  else if action.actionTypeId = ActionTypeId.wallboxFailsafeModeActionTypeId then
    let timeout : Int := if action.failsafeMode then 60 else 0
    some (KeContactCall.setFailsafe timeout 0 false)
  else none

/-- The method `IntegrationPluginKeba::executeAction`; `reply` gives the request id the session
returns for the method it is asked to run. -/
def executeAction (info : ActionInfo) (reply : KeContactCall → RequestId) (s : Plugin) :
    Plugin :=
  if (s.things info.thing).thingClassId = wallboxThingClassId then
    let keba := hashValue s.m_kebaDevices info.thing 0
    if keba = 0 then s.finish info.id ThingErrorHardwareNotAvailable
    else if s.kebaReachable keba = false then s.finish info.id ThingErrorHardwareNotAvailable
    else
      match actionCall info.action with
      | none => s.finish info.id ThingErrorActionTypeNotFound
      | some c =>
        let s := s.call keba c
        let requestId := reply c
        if requestId = 0 then s.finish info.id ThingErrorHardwareFailure
        else { s with m_asyncActions := hashInsert s.m_asyncActions requestId info }
  else s.finish info.id ThingErrorThingClassNotFound

/-- The lambda connected to `ThingActionInfo::aborted` in `executeAction`. -/
def actionAborted (requestId : RequestId) (s : Plugin) : Plugin :=
  { s with m_asyncActions := hashRemove s.m_asyncActions requestId }

/-- The slot `IntegrationPluginKeba::onCommandExecuted`, for a notification sent by the session
`keba`. -/
def onCommandExecuted (keba : KebaId) (requestId : RequestId) (success : Bool) (s : Plugin) :
    Plugin :=
  if hashContains s.m_asyncActions requestId then
    match s.senderThing keba with
    | none => s
    | some _ =>
      let info := hashValue s.m_asyncActions requestId default
      let s := { s with m_asyncActions := hashRemove s.m_asyncActions requestId }
      if success then
        let s := s.finish info.id ThingErrorNoError
        if info.action.actionTypeId = ActionTypeId.wallboxMaxChargingCurrentActionTypeId then
          s.setStateValue info.thing wallboxMaxChargingCurrentStateTypeId
            (Variant.uint info.action.maxChargingCurrent)
        else if info.action.actionTypeId = ActionTypeId.wallboxPowerActionTypeId then
          s.setStateValue info.thing wallboxPowerStateTypeId (Variant.bool info.action.power)
        else s
      else s.finish info.id ThingErrorHardwareFailure
  else s

/-! ## `discoverThings` -/

/-- The call `myThings().filterByParam(p, value)`: the configured things whose parameter `p`
has that value. -/
def Plugin.filterByParam (s : Plugin) (p : ParamTypeId) (value : String) : List ThingId :=
  s.myThings.filter (fun i => decide (s.paramValue i p = value))

/-- The descriptor built for one discovery result in the `discoveryFinished` handler of
`discoverThings`. -/
def discoveryDescriptor (s : Plugin) (result : KebaDiscoveryResult) : ThingDescriptor :=
  let existingThings := s.filterByParam wallboxThingMacAddressParamTypeId result.macAddress
  { thingClassId := wallboxThingClassId,
    title := "Keba " ++ result.product,
    description := "Serial: " ++ result.serialNumber ++ " - " ++ result.address,
    thingId := if existingThings.length = 1 then existingThings.headD 0 else 0,
    params :=
      [(wallboxThingMacAddressParamTypeId, result.macAddress),
       (wallboxThingIpAddressParamTypeId, result.address),
       (wallboxThingModelParamTypeId, result.product),
       (wallboxThingSerialNumberParamTypeId, result.serialNumber)] }

/-- The call `info->addThingDescriptor(descriptor)`. -/
def Plugin.addThingDescriptor (s : Plugin) (info : InfoId) (descriptor : ThingDescriptor) :
    Plugin :=
  { s with descriptors := s.descriptors ++ [(info, descriptor)] }

/-- The lambda connected to `KebaDiscovery::discoveryFinished` in `discoverThings`, run with
the results of the discovery. -/
def discoverThingsFinished (info : InfoId) (results : List KebaDiscoveryResult) (s : Plugin) :
    Plugin :=
  let s := results.foldl
    (fun acc result => acc.addThingDescriptor info (discoveryDescriptor acc result)) s
  s.finish info ThingErrorNoError

/-- The method `IntegrationPluginKeba::discoverThings` for a discovery info of the given thing
class; `initOk` is the result of `KeContactDataLayer::init()` should a data layer have to be
created, `available` the result of `networkDeviceDiscovery()->available()`.  The discovery it
creates has the info as parent and is started. -/
def discoverThings (info : InfoId) (thingClassId : ThingClassId) (initOk available : Bool)
    (s : Plugin) : Plugin :=
  if s.m_kebaDataLayer = false ∧ initOk = false then s.finish info ThingErrorHardwareFailure
  else
    let s := { s with m_kebaDataLayer := true }
    if available = false then s.finish info ThingErrorHardwareNotAvailable
    else if thingClassId = wallboxThingClassId then
      { s with
        discoveryCount := s.discoveryCount + 1,
        startedDiscoveries := s.startedDiscoveries ++ [s.discoveryCount + 1] }
    else s.finish info ThingErrorThingClassNotFound

/-! ## Broadcasts, connection changes and removal -/

/-- The slot `IntegrationPluginKeba::onBroadcastReceived` for a broadcast sent by the session
`keba`; `content` is the value of `content.toInt()`. -/
def onBroadcastReceived (E : Env) (keba : KebaId) (type : BroadcastType) (content : Int)
    (s : Plugin) : Plugin :=
  match s.senderThing keba with
  | none => s
  | some thing =>
    match type with
    | BroadcastType.BroadcastTypePlug => setDevicePlugState E thing content s
    | BroadcastType.BroadcastTypeInput =>
      s.setStateValue thing wallboxInputStateTypeId (Variant.bool (decide (content = 1)))
    | BroadcastType.BroadcastTypeEPres =>
      s.setStateValue thing wallboxSessionEnergyStateTypeId
        (Variant.double ((content : ℚ) / 10000))
    | BroadcastType.BroadcastTypeState => setDeviceState E thing content s
    | BroadcastType.BroadcastTypeMaxCurr => s
    | BroadcastType.BroadcastTypeEnableSys =>
      s.setStateValue thing wallboxSystemEnabledStateTypeId (Variant.bool (decide (content ≠ 0)))
    | BroadcastType.BroadcastTypeOther _ => s

/-- The slot `IntegrationPluginKeba::onConnectionChanged` for the session `keba`. -/
def onConnectionChanged (keba : KebaId) (status : Bool) (s : Plugin) : Plugin :=
  match s.senderThing keba with
  | none => s
  | some thing =>
    let s := s.setStateValue thing wallboxConnectedStateTypeId (Variant.bool status)
    if status = false then searchNetworkDevices s else s

/-- The method `IntegrationPluginKeba::thingRemoved`, called by the host once the thing has left
`myThings()`. -/
def thingRemoved (thing : ThingId) (s : Plugin) : Plugin :=
  let s :=
    if (s.things thing).thingClassId = wallboxThingClassId ∧
        hashContains s.m_kebaDevices thing = true then
      let keba := hashValue s.m_kebaDevices thing 0
      let s := { s with m_kebaDevices := hashRemove s.m_kebaDevices thing }
      s.call keba KeContactCall.deleteLater
    else s
  if s.myThings = [] then
    { s with m_kebaDataLayer := false, m_reconnectTimer := false, m_updateTimer := false }
  else s

/-! ## Predicates used in the statements -/

/-- The members that the reconciliation pass never writes are the same in `s` and `t`: the
configured things and their classes, the roster, the running discovery and the discoveries the
plugin owns. -/
def sameFrame (s t : Plugin) : Prop :=
  t.myThings = s.myThings ∧ t.m_kebaDevices = s.m_kebaDevices ∧
  t.m_runningDiscovery = s.m_runningDiscovery ∧ t.ownDiscoveries = s.ownDiscoveries ∧
  ∀ i : ThingId, (t.things i).thingClassId = (s.things i).thingClassId

/-- What a reconciliation round for `result` can do to the MAC and IP parameters on the way
from `s` to `t`: a MAC parameter changes only from empty to the result's MAC address, on a thing
whose IP parameter is the result's address; an IP parameter changes only to the result's
address, on a thing whose non-empty MAC parameter is the result's MAC address. -/
def paramStep (result : KebaDiscoveryResult) (s t : Plugin) : Prop :=
  ∀ thing : ThingId,
    (t.paramValue thing wallboxThingMacAddressParamTypeId
        = s.paramValue thing wallboxThingMacAddressParamTypeId ∨
      (s.paramValue thing wallboxThingMacAddressParamTypeId = "" ∧
        s.paramValue thing wallboxThingIpAddressParamTypeId = result.address ∧
        t.paramValue thing wallboxThingMacAddressParamTypeId = result.macAddress)) ∧
    (t.paramValue thing wallboxThingIpAddressParamTypeId
        = s.paramValue thing wallboxThingIpAddressParamTypeId ∨
      (s.paramValue thing wallboxThingMacAddressParamTypeId = result.macAddress ∧
        s.paramValue thing wallboxThingMacAddressParamTypeId ≠ "" ∧
        t.paramValue thing wallboxThingIpAddressParamTypeId = result.address))

/-- The inner loop for `result` over the things `l` finds nothing to do in `s`: every thing it
visits before a `break` already has what the loop would write. -/
def settled (result : KebaDiscoveryResult) : List ThingId → Plugin → Prop
  | [], _ => True
  | thing :: rest, s =>
    if s.paramValue thing wallboxThingMacAddressParamTypeId = "" then
      (s.paramValue thing wallboxThingIpAddressParamTypeId = result.address →
        result.macAddress = "") ∧ settled result rest s
    else if s.paramValue thing wallboxThingMacAddressParamTypeId = result.macAddress then
      s.paramValue thing wallboxThingIpAddressParamTypeId = result.address
    else settled result rest s

/-- The state types a broadcast of the given kind may write, in the words of the
specification: plug state text and plugged-in flag for a plug broadcast, the input flag for an
input broadcast, the session energy for an energy-present broadcast, activity text and charging
flag for a state broadcast, the system-enabled flag for a system-enable broadcast, none for a
max-current broadcast (or an unnamed kind). -/
def broadcastStates : BroadcastType → List StateTypeId
  | BroadcastType.BroadcastTypePlug => [wallboxPlugStateStateTypeId, wallboxPluggedInStateTypeId]
  | BroadcastType.BroadcastTypeInput => [wallboxInputStateTypeId]
  | BroadcastType.BroadcastTypeEPres => [wallboxSessionEnergyStateTypeId]
  | BroadcastType.BroadcastTypeState => [wallboxActivityStateTypeId, wallboxChargingStateTypeId]
  | BroadcastType.BroadcastTypeMaxCurr => []
  | BroadcastType.BroadcastTypeEnableSys => [wallboxSystemEnabledStateTypeId]
  | BroadcastType.BroadcastTypeOther _ => []

/-- The number of non-zero values among the three phase currents of a report 3. -/
def nonZeroPhases (reportThree : ReportThree) : Nat :=
  (if reportThree.currentPhase1 ≠ 0 then 1 else 0) +
  (if reportThree.currentPhase2 ≠ 0 then 1 else 0) +
  (if reportThree.currentPhase3 ≠ 0 then 1 else 0)

/-- On the way from `s` to `t` nothing but state values of `thing` of the state types `allowed`
has changed: all members other than the thing store are the same, and so are all parameters,
all state maxima and every other state value. -/
def writesOnly (thing : ThingId) (allowed : List StateTypeId) (s t : Plugin) : Prop :=
  (∃ f : ThingId → Thing, t = { s with things := f }) ∧
  (∀ other : ThingId, (t.things other).params = (s.things other).params ∧
    (t.things other).stateMax = (s.things other).stateMax ∧
    (t.things other).thingClassId = (s.things other).thingClassId) ∧
  (∀ (other : ThingId) (st : StateTypeId), ¬ (other = thing ∧ st ∈ allowed) →
    t.stateValue other st = s.stateValue other st)

/-- The discoveries owned by the plugin are exactly the running one, if any. -/
def singleDiscovery (s : Plugin) : Prop :=
  s.ownDiscoveries = if s.m_runningDiscovery = 0 then [] else [s.m_runningDiscovery]

/-- The entry points of the plugin that reach `searchNetworkDevices` or end a discovery. -/
inductive SearchOp where
  | search
  | finished (results : List KebaDiscoveryResult)
  | setup (info : InfoId) (thing : ThingId) (initOk : Bool)
  | postSetup (thing : ThingId)
  | reconnectTimeout
  | destroyed (thing : ThingId)
  | connectionChanged (keba : KebaId) (status : Bool)

/-- The effect of an entry point.  The `discoveryFinished` handler belongs to the running
discovery, so it only runs while there is one. -/
def SearchOp.run : SearchOp → Plugin → Plugin
  | SearchOp.search, s => searchNetworkDevices s
  | SearchOp.finished results, s =>
    if s.m_runningDiscovery ≠ 0 then searchDiscoveryFinished results s else s
  | SearchOp.setup info thing initOk, s => setupThing info thing initOk s
  | SearchOp.postSetup thing, s => postSetupThing thing s
  | SearchOp.reconnectTimeout, s => onReconnectTimeout s
  | SearchOp.destroyed thing, s => kebaDestroyed thing s
  | SearchOp.connectionChanged keba status, s => onConnectionChanged keba status s

/-- A sequence of entry points, run in order. -/
def runSearchOps (ops : List SearchOp) (s : Plugin) : Plugin :=
  ops.foldl (fun acc op => op.run acc) s

/-! ## Sample data -/

/-- A thing of the wallbox class with empty parameters and no state values. -/
def blankThing : Thing :=
  { thingClassId := wallboxThingClassId,
    params := fun _ => "",
    states := fun _ => Variant.invalid,
    stateMax := fun _ => Variant.invalid }

/-- The plugin right after construction: no configured thing, empty hashes and logs. -/
def initialPlugin : Plugin :=
  { things := fun _ => blankThing,
    myThings := [],
    m_kebaDevices := [],
    m_lastSessionId := [],
    emitted := [],
    finished := [],
    m_asyncActions := [],
    m_kebaDataLayer := false,
    m_updateTimer := false,
    m_reconnectTimer := false,
    m_runningDiscovery := 0,
    kebaAddress := fun _ => "",
    kebaReachable := fun _ => false,
    kebaCount := 0,
    calls := [],
    discoveryCount := 0,
    ownDiscoveries := [],
    startedDiscoveries := [],
    descriptors := [] }

/-- A plugin with one configured wallbox, thing `1` with serial number "17", whose session `7`
is registered and for which session id `41` has been recorded. -/
def onePlugin : Plugin :=
  { (initialPlugin.setParamValue 1 wallboxThingSerialNumberParamTypeId "17") with
    myThings := [1],
    m_kebaDevices := [(1, 7)],
    m_lastSessionId := [(1, 41)] }

/-- Same as `onePlugin` before any report 101 has been seen. -/
def freshPlugin : Plugin :=
  { onePlugin with m_lastSessionId := [] }

/-- A sample environment: enumerator values of the Keba UDP protocol, DIP switch 1.3 as bit
`0x20`, a product table with three entries and rounding half up. -/
def sampleEnv : Env :=
  { StateStarting := 0,
    StateNotReady := 1,
    StateReady := 2,
    StateCharging := 3,
    StateError := 4,
    StateAuthorizationRejected := 5,
    PlugStateUnplugged := 0,
    PlugStatePluggedOnChargingStation := 1,
    PlugStatePluggedOnChargingStationAndPluggedOnEV := 5,
    PlugStatePluggedOnChargingStationAndPlugLocked := 3,
    PlugStatePluggedOnChargingStationAndPlugLockedAndPluggedOnEV := 7,
    DipSwitchOneSmartHomeInterface := 32,
    productInformation := fun product =>
      if product = "KC-P30-EC240422-E00" then
        { isValid := true, series := SeriesC, model := "P30", germanEdition := false }
      else if product = "KC-P30-EB240422-E00" then
        { isValid := true, series := SeriesB, model := "P30", germanEdition := false }
      else if product = "KC-P30-EE240422-E00" then
        { isValid := true, series := SeriesOther 0, model := "P30", germanEdition := false }
      else
        { isValid := false, series := SeriesOther 0, model := "", germanEdition := false },
    qRound := fun q => Int.floor (q + 1 / 2),
    stateTypeMaxValue := fun _ _ => Variant.uint 32 }

/-- A plugin with one configured wallbox, thing `1` with the given MAC and IP parameters, whose
session `7` is registered with that IP as address and is reachable or not as told; the data
layer exists and no discovery is running. -/
def wallboxPlugin (mac ip : String) (reachable : Bool) : Plugin :=
  { ((initialPlugin.setParamValue 1 wallboxThingMacAddressParamTypeId mac).setParamValue 1
      wallboxThingIpAddressParamTypeId ip) with
    myThings := [1],
    m_kebaDevices := [(1, 7)],
    m_kebaDataLayer := true,
    kebaAddress := fun k => if k = 7 then ip else "",
    kebaReachable := fun k => decide (k = 7) && reachable,
    kebaCount := 7 }

/-- A plugin with two configured wallboxes: thing `1` has no session, thing `2` has the
reachable session `7`. -/
def twoThingsPlugin : Plugin :=
  { initialPlugin with
    myThings := [1, 2],
    m_kebaDevices := [(2, 7)],
    m_kebaDataLayer := true,
    kebaReachable := fun k => decide (k = 7),
    kebaCount := 7 }

/-- A discovery result for a wallbox with the given address and MAC address. -/
def sampleResult (address macAddress : String) : KebaDiscoveryResult :=
  { address := address, macAddress := macAddress, product := "KC-P30-EC240422-E00",
    serialNumber := "17" }

/-- A max-charging-current action with the given ampere value. -/
def sampleAction (ampere : Nat) : Action :=
  { actionTypeId := ActionTypeId.wallboxMaxChargingCurrentActionTypeId,
    maxChargingCurrent := ampere, power := false, message := "", outputX2 := false,
    failsafeMode := false }

/-- The action info `5` for thing `1` with a max-charging-current action of 16 A. -/
def sampleActionInfo : ActionInfo :=
  { id := 5, thing := 1, action := sampleAction 16 }

/-- The plugin `wallboxPlugin` with the action info `sampleActionInfo` pending under request
id `9`. -/
def pendingPlugin : Plugin :=
  { wallboxPlugin "AA:BB:CC:DD:EE:01" "192.168.0.10" true with
    m_asyncActions := [(9, sampleActionInfo)] }

/-- The plugin `wallboxPlugin` for the address "192.168.0.10" together with a second, not yet
configured thing `2` whose IP parameter is that same address. -/
def sameAddressPlugin : Plugin :=
  (wallboxPlugin "AA:BB:CC:DD:EE:01" "192.168.0.10" true).setParamValue 2
    wallboxThingIpAddressParamTypeId "192.168.0.10"

/-- Two configured wallboxes with the same MAC parameter "AA:BB:CC:DD:EE:01": thing `1` at
"192.168.0.10" with session `7`, thing `2` at "192.168.0.11" with session `8`. -/
def sameMacPlugin : Plugin :=
  { ((wallboxPlugin "AA:BB:CC:DD:EE:01" "192.168.0.10" true).setParamValue 2
      wallboxThingMacAddressParamTypeId "AA:BB:CC:DD:EE:01").setParamValue 2
      wallboxThingIpAddressParamTypeId "192.168.0.11" with
    myThings := [1, 2],
    m_kebaDevices := [(1, 7), (2, 8)],
    kebaCount := 8 }

/-- A report 2 carrying the given serial number. -/
def sampleReportTwo (serialNumber : String) : ReportTwo :=
  { state := 3, error1 := 0, error2 := 0, plugState := 7, enableSys := true, enableUser := true,
    maxCurrent := 16, maxCurrentPercentage := 50, currentHardwareLimitation := 32,
    currentUser := 16, currentFailsafe := 0, timeoutFailsafe := 0, currTimer := 0,
    timeoutCt := 0, output := false, input := false, serialNumber := serialNumber,
    seconds := 600 }

/-- A report 3 carrying the given serial number. -/
def sampleReportThree (serialNumber : String) : ReportThree :=
  { currentPhase1 := 6, currentPhase2 := 0, currentPhase3 := 0, voltagePhase1 := 230,
    voltagePhase2 := 0, voltagePhase3 := 0, power := 1380, powerFactor := 1,
    energySession := 2, energyTotal := 100, serialNumber := serialNumber, seconds := 600 }

/-- A report 1XX with the given session id, start and end time and serial number; uptime 600 s,
present energy 12. -/
def sampleReport1XX (sessionId startTime endTime : Int) (serialNumber : String) : Report1XX :=
  { sessionId := sessionId, currHW := 32, startEnergy := 0, presentEnergy := 12,
    startTime := startTime, endTime := endTime, stopReason := 1, rfidTag := "", rfidClass := "",
    serialNumber := serialNumber, seconds := 600 }

/-- A report 1 with the given serial number, product code and DIP switch 1 value. -/
def sampleReportOne (serialNumber product : String) (dipSw1 : Nat) : ReportOne :=
  { firmware := "P30 v 3.10.16", serialNumber := serialNumber, product := product,
    seconds := 600, comModule := false, dipSw1 := dipSw1, dipSw2 := 0 }

/-! ## Identity isolation of reports 2 and 3 -/

theorem onReportTwoReceived_mismatch (E : Env) (s : Plugin) (keba : KebaId) (thing : ThingId)
    (r : ReportTwo) (hthing : s.senderThing keba = some thing)
    (h : r.serialNumber ≠ s.paramValue thing wallboxThingSerialNumberParamTypeId) :
    onReportTwoReceived E keba r s = s := by
  simp [onReportTwoReceived, hthing, h]

theorem onReportThreeReceived_mismatch (s : Plugin) (keba : KebaId) (thing : ThingId)
    (r : ReportThree) (hthing : s.senderThing keba = some thing)
    (h : r.serialNumber ≠ s.paramValue thing wallboxThingSerialNumberParamTypeId) :
    onReportThreeReceived keba r s = s := by
  simp [onReportThreeReceived, hthing, h]

/-- C1: a report 2 or a report 3 whose serial number differs from the serial-number parameter of
the thing of the sending session leaves every state value and every state maximum of that thing
(and of every other thing) as it was. -/
theorem report_two_three_mismatch_keeps_states (E : Env) (s : Plugin) (keba : KebaId)
    (thing : ThingId) (r2 : ReportTwo) (r3 : ReportThree)
    (hthing : s.senderThing keba = some thing)
    (h2 : r2.serialNumber ≠ s.paramValue thing wallboxThingSerialNumberParamTypeId)
    (h3 : r3.serialNumber ≠ s.paramValue thing wallboxThingSerialNumberParamTypeId) :
    (∀ (i : ThingId) (st : StateTypeId),
        ((onReportTwoReceived E keba r2 s).things i).states st = (s.things i).states st ∧
        ((onReportTwoReceived E keba r2 s).things i).stateMax st = (s.things i).stateMax st) ∧
    (∀ (i : ThingId) (st : StateTypeId),
        ((onReportThreeReceived keba r3 s).things i).states st = (s.things i).states st ∧
        ((onReportThreeReceived keba r3 s).things i).stateMax st = (s.things i).stateMax st) := by
  rw [onReportTwoReceived_mismatch E s keba thing r2 hthing h2,
    onReportThreeReceived_mismatch s keba thing r3 hthing h3]
  exact ⟨fun _ _ => ⟨rfl, rfl⟩, fun _ _ => ⟨rfl, rfl⟩⟩

theorem report_two_three_mismatch_keeps_states_witness :
    onePlugin.senderThing 7 = some 1 ∧
    (∀ (i : ThingId) (st : StateTypeId),
        ((onReportTwoReceived sampleEnv 7 (sampleReportTwo "18") onePlugin).things i).states st
          = (onePlugin.things i).states st ∧
        ((onReportTwoReceived sampleEnv 7 (sampleReportTwo "18") onePlugin).things i).stateMax st
          = (onePlugin.things i).stateMax st) ∧
    (∀ (i : ThingId) (st : StateTypeId),
        ((onReportThreeReceived 7 (sampleReportThree "18") onePlugin).things i).states st
          = (onePlugin.things i).states st ∧
        ((onReportThreeReceived 7 (sampleReportThree "18") onePlugin).things i).stateMax st
          = (onePlugin.things i).stateMax st) :=
  ⟨by decide,
   report_two_three_mismatch_keeps_states sampleEnv onePlugin 7 1 (sampleReportTwo "18")
     (sampleReportThree "18") (by decide) (by decide) (by decide)⟩

/-! ## Identity isolation of reports 1XX -/

theorem onReport1XXReceived_mismatch_not_100 (s : Plugin) (keba : KebaId) (thing : ThingId)
    (reportNumber : Int) (r : Report1XX) (hthing : s.senderThing keba = some thing)
    (hn : reportNumber ≠ 100)
    (h : r.serialNumber ≠ s.paramValue thing wallboxThingSerialNumberParamTypeId) :
    onReport1XXReceived keba reportNumber r s = s := by
  simp [onReport1XXReceived, hthing, hn, h]

/-- C2: a report 100 with end time 0 whose serial number "18" differs from the serial-number
parameter "17" of the thing still writes the session-time state: for uptime 600 s and start
time 0 the state goes from no value to 10 minutes. -/
theorem report_100_mismatch_writes_session_time :
    onePlugin.senderThing 7 = some 1 ∧
    (sampleReport1XX 41 0 0 "18").serialNumber
      ≠ onePlugin.paramValue 1 wallboxThingSerialNumberParamTypeId ∧
    onePlugin.stateValue 1 wallboxSessionTimeStateTypeId = Variant.invalid ∧
    (onReport1XXReceived 7 100 (sampleReport1XX 41 0 0 "18") onePlugin).stateValue 1
      wallboxSessionTimeStateTypeId = Variant.double 10 := by
  refine ⟨by decide, by decide, by decide, ?_⟩
  have hthing : onePlugin.senderThing 7 = some 1 := by decide
  simp only [onReport1XXReceived, hthing]
  simp [sampleReport1XX, Plugin.setStateValue, Plugin.stateValue]
  norm_num

/-! ## Setup: the checks on report 1 -/

theorem hashValue_hashInsert {V : Type} (h : List (ThingId × V)) (k : ThingId) (v dflt : V) :
    hashValue (hashInsert h k v) k dflt = v := by
  simp [hashValue, hashInsert]

theorem registerSession_finished (info : InfoId) (thing : ThingId) (keba : KebaId)
    (report : ReportOne) (s : Plugin) :
    (registerSession info thing keba report s).finished
      = s.finished ++ [(info, ThingErrorNoError)] := rfl

theorem registerSession_devices (info : InfoId) (thing : ThingId) (keba : KebaId)
    (report : ReportOne) (s : Plugin) :
    (registerSession info thing keba report s).m_kebaDevices
      = hashInsert s.m_kebaDevices thing keba := rfl

theorem registerSession_connected (info : InfoId) (thing : ThingId) (keba : KebaId)
    (report : ReportOne) (s : Plugin) :
    (registerSession info thing keba report s).stateValue thing wallboxConnectedStateTypeId
      = Variant.bool true := by
  simp [registerSession, Plugin.setStateValue, Plugin.stateValue, Plugin.finish]

theorem setParamValue_states (s : Plugin) (thing : ThingId) (p : ParamTypeId) (v : String)
    (i : ThingId) : ((s.setParamValue thing p v).things i).states = (s.things i).states := by
  unfold Plugin.setParamValue
  dsimp only
  split_ifs <;> rfl

theorem setParamValue_paramValue (s : Plugin) (thing : ThingId) (p q : ParamTypeId)
    (v : String) :
    (s.setParamValue thing p v).paramValue thing q = if q = p then v else s.paramValue thing q := by
  simp [Plugin.setParamValue, Plugin.paramValue]

theorem reportOneReceived_eq (E : Env) (info : InfoId) (thing : ThingId) (keba : KebaId)
    (report : ReportOne) (s : Plugin) :
    reportOneReceived E info thing keba report s =
      if testFlag report.dipSw1 E.DipSwitchOneSmartHomeInterface = true ∧
          ((E.productInformation report.product).isValid = false ∨
            supported (E.productInformation report.product) = true) then
        registerSession info thing keba report (afterParamUpdate thing report s)
      else (afterParamUpdate thing report s).finish info ThingErrorHardwareFailure := by
  unfold reportOneReceived afterParamUpdate
  dsimp only
  cases h1 : testFlag report.dipSw1 E.DipSwitchOneSmartHomeInterface <;>
    cases h2 : (E.productInformation report.product).isValid <;>
    cases h3 : supported (E.productInformation report.product) <;> simp

theorem afterParamUpdate_finished (thing : ThingId) (report : ReportOne) (s : Plugin) :
    (afterParamUpdate thing report s).finished = s.finished := by
  unfold afterParamUpdate
  dsimp only
  split_ifs <;> rfl

theorem afterParamUpdate_devices (thing : ThingId) (report : ReportOne) (s : Plugin) :
    (afterParamUpdate thing report s).m_kebaDevices = s.m_kebaDevices := by
  unfold afterParamUpdate
  dsimp only
  split_ifs <;> rfl

theorem afterParamUpdate_states (thing : ThingId) (report : ReportOne) (s : Plugin)
    (i : ThingId) : ((afterParamUpdate thing report s).things i).states = (s.things i).states := by
  unfold afterParamUpdate
  dsimp only
  split_ifs <;> simp only [setParamValue_states]

theorem afterParamUpdate_serial (thing : ThingId) (report : ReportOne) (s : Plugin) :
    (afterParamUpdate thing report s).paramValue thing wallboxThingSerialNumberParamTypeId =
      if s.paramValue thing wallboxThingSerialNumberParamTypeId = "" then report.serialNumber
      else s.paramValue thing wallboxThingSerialNumberParamTypeId := by
  unfold afterParamUpdate
  dsimp only
  split_ifs <;> simp [setParamValue_paramValue]

theorem supported_iff_specSupported (p : KebaProductInfo) :
    supported p = true ↔ specSupported p := by
  unfold supported specSupported
  cases hs : p.series <;> simp

theorem reportOneReceived_success (E : Env) (info : InfoId) (thing : ThingId) (keba : KebaId)
    (report : ReportOne) (s : Plugin)
    (h : testFlag report.dipSw1 E.DipSwitchOneSmartHomeInterface = true ∧
      ((E.productInformation report.product).isValid = false ∨
        supported (E.productInformation report.product) = true)) :
    (reportOneReceived E info thing keba report s).finished
        = s.finished ++ [(info, ThingErrorNoError)] ∧
    hashValue (reportOneReceived E info thing keba report s).m_kebaDevices thing 0 = keba ∧
    (reportOneReceived E info thing keba report s).stateValue thing wallboxConnectedStateTypeId
        = Variant.bool true := by
  rw [reportOneReceived_eq, if_pos h]
  refine ⟨?_, ?_, registerSession_connected _ _ _ _ _⟩
  · rw [registerSession_finished, afterParamUpdate_finished]
  · rw [registerSession_devices, hashValue_hashInsert]

theorem reportOneReceived_failure (E : Env) (info : InfoId) (thing : ThingId) (keba : KebaId)
    (report : ReportOne) (s : Plugin)
    (h : ¬ (testFlag report.dipSw1 E.DipSwitchOneSmartHomeInterface = true ∧
      ((E.productInformation report.product).isValid = false ∨
        supported (E.productInformation report.product) = true))) :
    (reportOneReceived E info thing keba report s).finished
        = s.finished ++ [(info, ThingErrorHardwareFailure)] ∧
    (reportOneReceived E info thing keba report s).m_kebaDevices = s.m_kebaDevices ∧
    ∀ (i : ThingId) (st : StateTypeId),
      ((reportOneReceived E info thing keba report s).things i).states st
        = (s.things i).states st := by
  rw [reportOneReceived_eq, if_neg h]
  refine ⟨?_, ?_, ?_⟩
  · show (afterParamUpdate thing report s).finished ++ _ = _
    rw [afterParamUpdate_finished]
  · exact afterParamUpdate_devices thing report s
  · intro i st
    show ((afterParamUpdate thing report s).things i).states st = _
    rw [afterParamUpdate_states]

/-- C3: a report 1 whose DIP switch 1 value lacks the smart-home-interface flag makes the setup
finish with a hardware-failure error, leaves the roster `m_kebaDevices` as it was and changes no
state value (so the connected state is not set), whatever the product code is. -/
theorem setup_fails_without_dip_switch (E : Env) (info : InfoId) (thing : ThingId)
    (keba : KebaId) (report : ReportOne) (s : Plugin)
    (hdip : testFlag report.dipSw1 E.DipSwitchOneSmartHomeInterface = false) :
    (reportOneReceived E info thing keba report s).finished
        = s.finished ++ [(info, ThingErrorHardwareFailure)] ∧
    (reportOneReceived E info thing keba report s).m_kebaDevices = s.m_kebaDevices ∧
    ∀ (i : ThingId) (st : StateTypeId),
      ((reportOneReceived E info thing keba report s).things i).states st
        = (s.things i).states st :=
  reportOneReceived_failure E info thing keba report s (by simp [hdip])

theorem setup_fails_without_dip_switch_witness :
    (reportOneReceived sampleEnv 1 1 7 (sampleReportOne "17" "KC-P30-EC240422-E00" 0)
        initialPlugin).finished = initialPlugin.finished ++ [(1, ThingErrorHardwareFailure)] ∧
    (reportOneReceived sampleEnv 1 1 7 (sampleReportOne "17" "KC-P30-EC240422-E00" 0)
        initialPlugin).m_kebaDevices = initialPlugin.m_kebaDevices ∧
    ∀ (i : ThingId) (st : StateTypeId),
      ((reportOneReceived sampleEnv 1 1 7 (sampleReportOne "17" "KC-P30-EC240422-E00" 0)
        initialPlugin).things i).states st = (initialPlugin.things i).states st :=
  setup_fails_without_dip_switch sampleEnv 1 1 7 (sampleReportOne "17" "KC-P30-EC240422-E00" 0)
    initialPlugin (by decide)

/-- C4: for a report 1 with the DIP switch 1.3 flag set and a product code that parses as valid,
the setup finishes without error and registers the session when the model is one the
specification lists as supported; otherwise it finishes with a hardware-failure error and the
roster is left as it was. -/
theorem setup_valid_product_succeeds_iff_supported (E : Env) (info : InfoId) (thing : ThingId)
    (keba : KebaId) (report : ReportOne) (s : Plugin)
    (hdip : testFlag report.dipSw1 E.DipSwitchOneSmartHomeInterface = true)
    (hvalid : (E.productInformation report.product).isValid = true) :
    (specSupported (E.productInformation report.product) →
      (reportOneReceived E info thing keba report s).finished
          = s.finished ++ [(info, ThingErrorNoError)] ∧
      hashValue (reportOneReceived E info thing keba report s).m_kebaDevices thing 0 = keba) ∧
    (¬ specSupported (E.productInformation report.product) →
      (reportOneReceived E info thing keba report s).finished
          = s.finished ++ [(info, ThingErrorHardwareFailure)] ∧
      (reportOneReceived E info thing keba report s).m_kebaDevices = s.m_kebaDevices) := by
  constructor
  · intro hsup
    have h := reportOneReceived_success E info thing keba report s
      ⟨hdip, Or.inr ((supported_iff_specSupported _).2 hsup)⟩
    exact ⟨h.1, h.2.1⟩
  · intro hsup
    have hns : supported (E.productInformation report.product) ≠ true :=
      fun h => hsup ((supported_iff_specSupported _).1 h)
    have h := reportOneReceived_failure E info thing keba report s
      (by simp [hdip, hvalid, hns])
    exact ⟨h.1, h.2.1⟩

theorem setup_valid_product_succeeds_iff_supported_witness :
    ((reportOneReceived sampleEnv 1 1 7 (sampleReportOne "17" "KC-P30-EC240422-E00" 32)
        initialPlugin).finished = initialPlugin.finished ++ [(1, ThingErrorNoError)] ∧
      hashValue (reportOneReceived sampleEnv 1 1 7
        (sampleReportOne "17" "KC-P30-EC240422-E00" 32) initialPlugin).m_kebaDevices 1 0 = 7) ∧
    ((reportOneReceived sampleEnv 1 1 7 (sampleReportOne "17" "KC-P30-EB240422-E00" 32)
        initialPlugin).finished = initialPlugin.finished ++ [(1, ThingErrorHardwareFailure)] ∧
      (reportOneReceived sampleEnv 1 1 7 (sampleReportOne "17" "KC-P30-EB240422-E00" 32)
        initialPlugin).m_kebaDevices = initialPlugin.m_kebaDevices) :=
  ⟨(setup_valid_product_succeeds_iff_supported sampleEnv 1 1 7
      (sampleReportOne "17" "KC-P30-EC240422-E00" 32) initialPlugin
      (by decide) (by decide)).1 (by decide),
   (setup_valid_product_succeeds_iff_supported sampleEnv 1 1 7
      (sampleReportOne "17" "KC-P30-EB240422-E00" 32) initialPlugin
      (by decide) (by decide)).2 (by decide)⟩

/-- C5: for a report 1 with the DIP switch 1.3 flag set whose product code does not parse as
valid, the setup finishes without error, the session is inserted into the roster and the
connected state is set to true. -/
theorem setup_unparsed_product_is_supported (E : Env) (info : InfoId) (thing : ThingId)
    (keba : KebaId) (report : ReportOne) (s : Plugin)
    (hdip : testFlag report.dipSw1 E.DipSwitchOneSmartHomeInterface = true)
    (hinvalid : (E.productInformation report.product).isValid = false) :
    (reportOneReceived E info thing keba report s).finished
        = s.finished ++ [(info, ThingErrorNoError)] ∧
    hashValue (reportOneReceived E info thing keba report s).m_kebaDevices thing 0 = keba ∧
    (reportOneReceived E info thing keba report s).stateValue thing wallboxConnectedStateTypeId
        = Variant.bool true :=
  reportOneReceived_success E info thing keba report s ⟨hdip, Or.inl hinvalid⟩

theorem setup_unparsed_product_is_supported_witness :
    (reportOneReceived sampleEnv 1 1 7 (sampleReportOne "17" "no product code" 32)
        initialPlugin).finished = initialPlugin.finished ++ [(1, ThingErrorNoError)] ∧
    hashValue (reportOneReceived sampleEnv 1 1 7 (sampleReportOne "17" "no product code" 32)
        initialPlugin).m_kebaDevices 1 0 = 7 ∧
    (reportOneReceived sampleEnv 1 1 7 (sampleReportOne "17" "no product code" 32)
        initialPlugin).stateValue 1 wallboxConnectedStateTypeId = Variant.bool true :=
  setup_unparsed_product_is_supported sampleEnv 1 1 7
    (sampleReportOne "17" "no product code" 32) initialPlugin (by decide) (by decide)

theorem finish_paramValue (s : Plugin) (info : InfoId) (status : ThingError) (thing : ThingId)
    (p : ParamTypeId) : (s.finish info status).paramValue thing p = s.paramValue thing p := rfl

theorem registerSession_paramValue (info : InfoId) (thing : ThingId) (keba : KebaId)
    (report : ReportOne) (s : Plugin) (p : ParamTypeId) :
    (registerSession info thing keba report s).paramValue thing p = s.paramValue thing p := by
  simp [registerSession, Plugin.setStateValue, Plugin.paramValue, Plugin.finish]

theorem reportOneReceived_serial (E : Env) (info : InfoId) (thing : ThingId) (keba : KebaId)
    (report : ReportOne) (s : Plugin) :
    (reportOneReceived E info thing keba report s).paramValue thing
        wallboxThingSerialNumberParamTypeId =
      if s.paramValue thing wallboxThingSerialNumberParamTypeId = "" then report.serialNumber
      else s.paramValue thing wallboxThingSerialNumberParamTypeId := by
  rw [reportOneReceived_eq]
  split_ifs <;>
    simp only [registerSession_paramValue, finish_paramValue, afterParamUpdate_serial] <;>
    simp_all

/-- C6: after the handler has processed a report 1, the serial-number parameter of the thing is
the report's serial number when the parameter was empty before, and is the unchanged old value
when it was not empty, whatever serial number the report carries. -/
theorem setup_keeps_serial_number_once_set (E : Env) (info : InfoId) (thing : ThingId)
    (keba : KebaId) (report : ReportOne) (s : Plugin) :
    (reportOneReceived E info thing keba report s).paramValue thing
        wallboxThingSerialNumberParamTypeId =
      if s.paramValue thing wallboxThingSerialNumberParamTypeId = "" then report.serialNumber
      else s.paramValue thing wallboxThingSerialNumberParamTypeId :=
  reportOneReceived_serial E info thing keba report s

/-- C7 fails: a report 1 with an empty serial number, the DIP switch 1.3 flag set and an
unparsed product code completes the setup: no error, session registered, connected state
true. -/
theorem setup_succeeds_with_empty_serial_example :
    (sampleReportOne "" "no product code" 32).serialNumber = "" ∧
    (reportOneReceived sampleEnv 1 1 7 (sampleReportOne "" "no product code" 32)
        initialPlugin).finished = [(1, ThingErrorNoError)] ∧
    hashValue (reportOneReceived sampleEnv 1 1 7 (sampleReportOne "" "no product code" 32)
        initialPlugin).m_kebaDevices 1 0 = 7 ∧
    (reportOneReceived sampleEnv 1 1 7 (sampleReportOne "" "no product code" 32)
        initialPlugin).stateValue 1 wallboxConnectedStateTypeId = Variant.bool true := by
  refine ⟨rfl, ?_⟩
  exact reportOneReceived_success sampleEnv 1 1 7 (sampleReportOne "" "no product code" 32)
    initialPlugin ⟨by decide, Or.inl (by decide)⟩

/-- C7 as amended: the serial number of a report 1 is not checked.  For a report 1 with an empty
serial number the thing's serial-number parameter stays what it was, and the setup completes
(no error, session registered, connected state true) when the DIP switch 1.3 flag is set and the
product code is unparsed or of a supported model; otherwise it finishes with a hardware-failure
error, the roster is left as it was and no state value changes. -/
theorem setup_with_empty_serial (E : Env) (info : InfoId) (thing : ThingId)
    (keba : KebaId) (report : ReportOne) (s : Plugin) (hempty : report.serialNumber = "") :
    (reportOneReceived E info thing keba report s).paramValue thing
        wallboxThingSerialNumberParamTypeId
      = s.paramValue thing wallboxThingSerialNumberParamTypeId ∧
    ((testFlag report.dipSw1 E.DipSwitchOneSmartHomeInterface = true ∧
        ((E.productInformation report.product).isValid = false ∨
          specSupported (E.productInformation report.product))) →
      (reportOneReceived E info thing keba report s).finished
          = s.finished ++ [(info, ThingErrorNoError)] ∧
      hashValue (reportOneReceived E info thing keba report s).m_kebaDevices thing 0 = keba ∧
      (reportOneReceived E info thing keba report s).stateValue thing
          wallboxConnectedStateTypeId = Variant.bool true) ∧
    (¬ (testFlag report.dipSw1 E.DipSwitchOneSmartHomeInterface = true ∧
        ((E.productInformation report.product).isValid = false ∨
          specSupported (E.productInformation report.product))) →
      (reportOneReceived E info thing keba report s).finished
          = s.finished ++ [(info, ThingErrorHardwareFailure)] ∧
      (reportOneReceived E info thing keba report s).m_kebaDevices = s.m_kebaDevices ∧
      ∀ (i : ThingId) (st : StateTypeId),
        ((reportOneReceived E info thing keba report s).things i).states st
          = (s.things i).states st) := by
  refine ⟨?_, ?_, ?_⟩
  · rw [reportOneReceived_serial, hempty]
    split_ifs with h
    · exact h.symm
    · rfl
  · intro h
    exact reportOneReceived_success E info thing keba report s
      ⟨h.1, h.2.imp id (supported_iff_specSupported _).2⟩
  · intro h
    exact reportOneReceived_failure E info thing keba report s
      (fun h2 => h ⟨h2.1, h2.2.imp id (supported_iff_specSupported _).1⟩)

theorem setup_with_empty_serial_witness :
    (reportOneReceived sampleEnv 1 1 7 (sampleReportOne "" "KC-P30-EC240422-E00" 32)
        onePlugin).paramValue 1 wallboxThingSerialNumberParamTypeId = "17" ∧
    (reportOneReceived sampleEnv 1 1 7 (sampleReportOne "" "KC-P30-EC240422-E00" 32)
        onePlugin).finished = [(1, ThingErrorNoError)] ∧
    hashValue (reportOneReceived sampleEnv 1 1 7 (sampleReportOne "" "KC-P30-EC240422-E00" 32)
        onePlugin).m_kebaDevices 1 0 = 7 ∧
    (reportOneReceived sampleEnv 1 1 7 (sampleReportOne "" "KC-P30-EC240422-E00" 32)
        onePlugin).stateValue 1 wallboxConnectedStateTypeId = Variant.bool true :=
  ⟨(setup_with_empty_serial sampleEnv 1 1 7 (sampleReportOne "" "KC-P30-EC240422-E00" 32)
      onePlugin rfl).1,
   (setup_with_empty_serial sampleEnv 1 1 7 (sampleReportOne "" "KC-P30-EC240422-E00" 32)
      onePlugin rfl).2.1 ⟨by decide, Or.inr (by decide)⟩⟩

/-! ## Charging-session-finished events -/

theorem onReport1XXReceived_101_changed (s : Plugin) (keba : KebaId) (thing : ThingId)
    (report : Report1XX) (hthing : s.senderThing keba = some thing)
    (hserial : report.serialNumber = s.paramValue thing wallboxThingSerialNumberParamTypeId)
    (hrecorded : hashContains s.m_lastSessionId thing = true)
    (hchanged : hashValue s.m_lastSessionId thing 0 ≠ report.sessionId) :
    onReport1XXReceived keba 101 report s = s.emitEvent (sessionFinishedEvent thing report) := by
  simp [onReport1XXReceived, hthing, hserial.symm, hrecorded, hchanged]

/-- C8: when a report 101 with matching serial number carries a session id that differs from the
one recorded for the thing, the handler appends exactly one event to the emitted events: a
charging-session-finished event addressed to that thing whose energy parameter is the report's
`presentEnergy`. -/
theorem report_101_new_session_emits_one_event (s : Plugin) (keba : KebaId) (thing : ThingId)
    (report : Report1XX) (hthing : s.senderThing keba = some thing)
    (hserial : report.serialNumber = s.paramValue thing wallboxThingSerialNumberParamTypeId)
    (hrecorded : hashContains s.m_lastSessionId thing = true)
    (hchanged : hashValue s.m_lastSessionId thing 0 ≠ report.sessionId) :
    ∃ event : Event,
      (onReport1XXReceived keba 101 report s).emitted = s.emitted ++ [event] ∧
      event.eventTypeId = wallboxChargingSessionFinishedEventTypeId ∧
      event.thingId = thing ∧
      event.paramValue wallboxChargingSessionFinishedEventEnergyParamTypeId
        = Variant.double report.presentEnergy := by
  refine ⟨sessionFinishedEvent thing report, ?_, rfl, rfl, ?_⟩
  · rw [onReport1XXReceived_101_changed s keba thing report hthing hserial hrecorded hchanged]
    rfl
  · simp [sessionFinishedEvent, Event.paramValue]

theorem report_101_new_session_emits_one_event_witness :
    ∃ event : Event,
      (onReport1XXReceived 7 101 (sampleReport1XX 42 1000 4600 "17") onePlugin).emitted
        = onePlugin.emitted ++ [event] ∧
      event.eventTypeId = wallboxChargingSessionFinishedEventTypeId ∧
      event.thingId = 1 ∧
      event.paramValue wallboxChargingSessionFinishedEventEnergyParamTypeId
        = Variant.double (sampleReport1XX 42 1000 4600 "17").presentEnergy :=
  report_101_new_session_emits_one_event onePlugin 7 1 (sampleReport1XX 42 1000 4600 "17")
    (by decide) (by decide) (by decide) (by decide)

theorem onReport1XXReceived_keeps_record (s : Plugin) (keba : KebaId) (thing : ThingId)
    (reportNumber : Int) (report : Report1XX) (hthing : s.senderThing keba = some thing)
    (hrecorded : hashContains s.m_lastSessionId thing = true) :
    (onReport1XXReceived keba reportNumber report s).m_lastSessionId = s.m_lastSessionId := by
  simp only [onReport1XXReceived, hthing, hrecorded]
  split_ifs <;> first | rfl | simp_all

/-- C9: delivered to a plugin that has not yet recorded a session id, the reports 101 with
session ids 41, 42, 42 (matching serial number) make the plugin emit two
charging-session-finished events, although the sequence has a single session transition; the
recorded session id is still 41 afterwards. -/
theorem repeated_session_id_is_notified_again :
    freshPlugin.emitted = [] ∧
    (deliverReports101 7
      [sampleReport1XX 41 0 100 "17", sampleReport1XX 42 200 300 "17",
        sampleReport1XX 42 200 300 "17"] freshPlugin).emitted.length = 2 ∧
    sessionTransitions [41, 42, 42] = 1 ∧
    (deliverReports101 7
      [sampleReport1XX 41 0 100 "17", sampleReport1XX 42 200 300 "17",
        sampleReport1XX 42 200 300 "17"] freshPlugin).m_lastSessionId = [(1, 41)] := by
  refine ⟨rfl, ?_, by decide, ?_⟩ <;> decide

/-- C10: for the report 101 with start time 1000 and end time 4600 that closes session 41, the
duration parameter of the emitted charging-session-finished event is the end time 4600, not the
session duration 4600 - 1000 = 3600. -/
theorem session_finished_duration_is_end_time :
    (onReport1XXReceived 7 101 (sampleReport1XX 42 1000 4600 "17") onePlugin).emitted
      = [sessionFinishedEvent 1 (sampleReport1XX 42 1000 4600 "17")] ∧
    (sessionFinishedEvent 1 (sampleReport1XX 42 1000 4600 "17")).paramValue
      wallboxChargingSessionFinishedEventDurationParamTypeId = Variant.int 4600 ∧
    (sampleReport1XX 42 1000 4600 "17").endTime - (sampleReport1XX 42 1000 4600 "17").startTime
      = 3600 := by
  refine ⟨?_, by decide, by decide⟩
  rw [onReport1XXReceived_101_changed onePlugin 7 1 _ (by decide) (by decide) (by decide)
    (by decide)]
  rfl

/-! ## Reconciliation of things without MAC address -/

/-- C13: a configured wallbox whose MAC parameter is "00:00:00:00:00:00" makes `postSetupThing`
start a network search (a discovery is created), but when a discovery result carries the
thing's IP address the reconciliation pass leaves the MAC parameter at "00:00:00:00:00:00"
instead of setting it to the result's MAC address. -/
theorem zero_mac_is_not_replaced :
    (wallboxPlugin "00:00:00:00:00:00" "192.168.0.10" true).paramValue 1
      wallboxThingIpAddressParamTypeId = (sampleResult "192.168.0.10" "AA:BB:CC:DD:EE:01").address ∧
    (postSetupThing 1 (wallboxPlugin "00:00:00:00:00:00" "192.168.0.10" true)).m_runningDiscovery
      = 1 ∧
    (reconcile [sampleResult "192.168.0.10" "AA:BB:CC:DD:EE:01"]
      (wallboxPlugin "00:00:00:00:00:00" "192.168.0.10" true)).paramValue 1
      wallboxThingMacAddressParamTypeId = "00:00:00:00:00:00" ∧
    (searchDiscoveryFinished [sampleResult "192.168.0.10" "AA:BB:CC:DD:EE:01"]
      (wallboxPlugin "00:00:00:00:00:00" "192.168.0.10" true)).paramValue 1
      wallboxThingMacAddressParamTypeId = "00:00:00:00:00:00" := by
  refine ⟨by decide, by decide, by decide, by decide⟩

/-! ## The two timers -/

/-- C14: with one configured wallbox whose registered session is not reachable, the data layer
present and no discovery running, the reconnect-timer handler starts no network search (no
discovery object is created), although a call of `searchNetworkDevices` in that state would
create one. -/
theorem unreachable_session_starts_no_search :
    (wallboxPlugin "AA:BB:CC:DD:EE:01" "192.168.0.10" false).wallboxThings = [1] ∧
    hashValue (wallboxPlugin "AA:BB:CC:DD:EE:01" "192.168.0.10" false).m_kebaDevices 1 0 = 7 ∧
    (wallboxPlugin "AA:BB:CC:DD:EE:01" "192.168.0.10" false).kebaReachable 7 = false ∧
    (searchNetworkDevices
      (wallboxPlugin "AA:BB:CC:DD:EE:01" "192.168.0.10" false)).m_runningDiscovery = 1 ∧
    (onReconnectTimeout
      (wallboxPlugin "AA:BB:CC:DD:EE:01" "192.168.0.10" false)).m_runningDiscovery = 0 ∧
    (onReconnectTimeout
      (wallboxPlugin "AA:BB:CC:DD:EE:01" "192.168.0.10" false)).discoveryCount = 0 := by
  refine ⟨by decide, by decide, by decide, by decide, by decide, by decide⟩

/-- C15: with two configured wallboxes of which the first has no session and the second has
session `7`, the update-timer handler requests nothing: the call log stays empty, so report 2
and report 3 are not requested from session `7`. -/
theorem update_timer_stops_at_missing_session :
    twoThingsPlugin.wallboxThings = [1, 2] ∧
    hashValue twoThingsPlugin.m_kebaDevices 1 0 = 0 ∧
    hashValue twoThingsPlugin.m_kebaDevices 2 0 = 7 ∧
    (onUpdateTimeout twoThingsPlugin).calls = [] := by
  refine ⟨by decide, by decide, by decide, by decide⟩

/-! ## What the reconciliation pass leaves alone -/

theorem sameFrame_refl (s : Plugin) : sameFrame s s :=
  ⟨rfl, rfl, rfl, rfl, fun _ => rfl⟩

theorem sameFrame_trans {s t u : Plugin} (h1 : sameFrame s t) (h2 : sameFrame t u) :
    sameFrame s u :=
  ⟨h2.1.trans h1.1, h2.2.1.trans h1.2.1, h2.2.2.1.trans h1.2.2.1, h2.2.2.2.1.trans h1.2.2.2.1,
    fun i => (h2.2.2.2.2 i).trans (h1.2.2.2.2 i)⟩

theorem sameFrame_setParamValue (s : Plugin) (thing : ThingId) (p : ParamTypeId) (v : String) :
    sameFrame s (s.setParamValue thing p v) := by
  refine ⟨rfl, rfl, rfl, rfl, fun i => ?_⟩
  unfold Plugin.setParamValue
  dsimp only
  split_ifs <;> rfl

theorem sameFrame_reconcileThing (result : KebaDiscoveryResult) (thing : ThingId) (s : Plugin) :
    sameFrame s (reconcileThing result thing s).1 := by
  unfold reconcileThing
  dsimp only
  split_ifs
  · exact sameFrame_setParamValue _ _ _ _
  · exact sameFrame_refl s
  · exact sameFrame_trans (sameFrame_setParamValue s thing _ result.address)
      ⟨rfl, rfl, rfl, rfl, fun _ => rfl⟩
  · exact sameFrame_setParamValue _ _ _ _
  · exact sameFrame_refl s
  · exact sameFrame_refl s

theorem sameFrame_reconcileThings (result : KebaDiscoveryResult) (l : List ThingId)
    (s : Plugin) : sameFrame s (reconcileThings result l s) := by
  induction l generalizing s with
  | nil => exact sameFrame_refl s
  | cons thing rest ih =>
    unfold reconcileThings
    split_ifs
    · exact sameFrame_reconcileThing result thing s
    · exact sameFrame_trans (sameFrame_reconcileThing result thing s) (ih _)

theorem sameFrame_reconcile (results : List KebaDiscoveryResult) (s : Plugin) :
    sameFrame s (reconcile results s) := by
  induction results generalizing s with
  | nil => exact sameFrame_refl s
  | cons result rest ih =>
    exact sameFrame_trans (sameFrame_reconcileThings result s.wallboxThings s)
      (ih (reconcileResult s result))

theorem wallboxThings_of_sameFrame {s t : Plugin} (h : sameFrame s t) :
    t.wallboxThings = s.wallboxThings := by
  unfold Plugin.wallboxThings
  rw [h.1]
  apply List.filter_congr
  intro i _
  rw [h.2.2.2.2 i]

/-! ## At most one reconciliation discovery -/

theorem searchNetworkDevices_running (s : Plugin) (h : s.m_runningDiscovery ≠ 0) :
    searchNetworkDevices s = s := by
  simp [searchNetworkDevices, h]

theorem singleDiscovery_of_eq {s t : Plugin} (h1 : t.m_runningDiscovery = s.m_runningDiscovery)
    (h2 : t.ownDiscoveries = s.ownDiscoveries) (h : singleDiscovery s) : singleDiscovery t := by
  unfold singleDiscovery at *
  rw [h1, h2]
  exact h

theorem singleDiscovery_search (s : Plugin) (h : singleDiscovery s) :
    singleDiscovery (searchNetworkDevices s) := by
  unfold searchNetworkDevices
  split_ifs with h1 h2
  · exact h
  · exact h
  · unfold singleDiscovery at *
    simp only [not_not] at h1
    simp [h, h1]

theorem singleDiscovery_finished (results : List KebaDiscoveryResult) (s : Plugin)
    (h : singleDiscovery s) (hrun : s.m_runningDiscovery ≠ 0) :
    singleDiscovery (searchDiscoveryFinished results s) := by
  have hf := sameFrame_reconcile results s
  unfold singleDiscovery at h
  rw [if_neg hrun] at h
  unfold searchDiscoveryFinished singleDiscovery
  simp [hf.2.2.2.1, hf.2.2.1, h]

theorem singleDiscovery_destroyed (thing : ThingId) (s : Plugin) (h : singleDiscovery s) :
    singleDiscovery (kebaDestroyed thing s) :=
  singleDiscovery_search _ (singleDiscovery_of_eq rfl rfl h)

theorem singleDiscovery_reconfigure (thing : ThingId) (s : Plugin) (h : singleDiscovery s) :
    singleDiscovery (reconfigure thing s) := by
  unfold reconfigure
  dsimp only
  split_ifs
  · exact singleDiscovery_destroyed thing _ (singleDiscovery_of_eq rfl rfl h)
  · exact singleDiscovery_of_eq rfl rfl h
  · exact h

theorem singleDiscovery_setupSession (info : InfoId) (thing : ThingId) (s : Plugin)
    (h : singleDiscovery s) : singleDiscovery (setupSession info thing s) := by
  unfold setupSession
  dsimp only
  split_ifs <;> exact singleDiscovery_of_eq rfl rfl h

theorem singleDiscovery_setupThing (info : InfoId) (thing : ThingId) (initOk : Bool)
    (s : Plugin) (h : singleDiscovery s) : singleDiscovery (setupThing info thing initOk s) := by
  have hr := singleDiscovery_reconfigure thing s h
  unfold setupThing
  dsimp only
  split_ifs
  · exact singleDiscovery_of_eq rfl rfl hr
  · exact singleDiscovery_setupSession info thing _ (singleDiscovery_of_eq rfl rfl hr)
  · exact singleDiscovery_setupSession info thing _ hr
  · exact singleDiscovery_of_eq rfl rfl h

theorem singleDiscovery_postSetupThing (thing : ThingId) (s : Plugin) (h : singleDiscovery s) :
    singleDiscovery (postSetupThing thing s) := by
  have hc : singleDiscovery
      ((s.call (hashValue s.m_kebaDevices thing 0) KeContactCall.getReport2).call
        (hashValue s.m_kebaDevices thing 0) KeContactCall.getReport3) :=
    singleDiscovery_of_eq rfl rfl h
  have hs := singleDiscovery_search _ hc
  unfold postSetupThing
  dsimp only
  split_ifs <;>
    first
      | exact h
      | exact singleDiscovery_of_eq rfl rfl hs

theorem singleDiscovery_reconnect (s : Plugin) (h : singleDiscovery s) :
    singleDiscovery (onReconnectTimeout s) := by
  unfold onReconnectTimeout
  split
  · exact singleDiscovery_search s h
  · exact h

theorem singleDiscovery_connectionChanged (keba : KebaId) (status : Bool) (s : Plugin)
    (h : singleDiscovery s) : singleDiscovery (onConnectionChanged keba status s) := by
  unfold onConnectionChanged
  split
  · exact h
  · dsimp only
    split_ifs
    · exact singleDiscovery_search _ (singleDiscovery_of_eq rfl rfl h)
    · exact singleDiscovery_of_eq rfl rfl h

theorem singleDiscovery_run (op : SearchOp) (s : Plugin) (h : singleDiscovery s) :
    singleDiscovery (op.run s) := by
  cases op with
  | search => exact singleDiscovery_search s h
  | finished results =>
    show singleDiscovery (if s.m_runningDiscovery ≠ 0 then searchDiscoveryFinished results s
      else s)
    split_ifs with hrun
    · exact singleDiscovery_finished results s h hrun
    · exact h
  | setup info thing initOk => exact singleDiscovery_setupThing info thing initOk s h
  | postSetup thing => exact singleDiscovery_postSetupThing thing s h
  | reconnectTimeout => exact singleDiscovery_reconnect s h
  | destroyed thing => exact singleDiscovery_destroyed thing s h
  | connectionChanged keba status => exact singleDiscovery_connectionChanged keba status s h

theorem singleDiscovery_runSearchOps (ops : List SearchOp) (s : Plugin)
    (h : singleDiscovery s) : singleDiscovery (runSearchOps ops s) := by
  induction ops generalizing s with
  | nil => exact h
  | cons op rest ih => exact ih (op.run s) (singleDiscovery_run op s h)

theorem singleDiscovery_length (s : Plugin) (h : singleDiscovery s) :
    s.ownDiscoveries.length ≤ 1 := by
  unfold singleDiscovery at h
  rw [h]
  split_ifs <;> simp

/-- C16: while a reconciliation discovery is running (`m_runningDiscovery` set),
`searchNetworkDevices` returns the plugin state unchanged, so it creates no discovery; and from
any state in which the plugin owns exactly its running discovery (as it does after
construction), every sequence of entry points that reach `searchNetworkDevices` or end a
discovery leaves at most one discovery owned by the plugin. -/
theorem search_while_running_is_noop (s : Plugin) (ops : List SearchOp)
    (hrunning : s.m_runningDiscovery ≠ 0) (hsingle : singleDiscovery s) :
    searchNetworkDevices s = s ∧
    singleDiscovery initialPlugin ∧
    singleDiscovery (runSearchOps ops s) ∧
    (runSearchOps ops s).ownDiscoveries.length ≤ 1 :=
  ⟨searchNetworkDevices_running s hrunning, rfl, singleDiscovery_runSearchOps ops s hsingle,
    singleDiscovery_length _ (singleDiscovery_runSearchOps ops s hsingle)⟩

theorem search_while_running_is_noop_witness :
    searchNetworkDevices (searchNetworkDevices (wallboxPlugin "" "192.168.0.10" true))
      = searchNetworkDevices (wallboxPlugin "" "192.168.0.10" true) ∧
    singleDiscovery initialPlugin ∧
    singleDiscovery (runSearchOps [SearchOp.search, SearchOp.postSetup 1, SearchOp.finished [],
      SearchOp.reconnectTimeout] (searchNetworkDevices (wallboxPlugin "" "192.168.0.10" true))) ∧
    (runSearchOps [SearchOp.search, SearchOp.postSetup 1, SearchOp.finished [],
      SearchOp.reconnectTimeout]
      (searchNetworkDevices (wallboxPlugin "" "192.168.0.10" true))).ownDiscoveries.length ≤ 1 :=
  search_while_running_is_noop (searchNetworkDevices (wallboxPlugin "" "192.168.0.10" true))
    [SearchOp.search, SearchOp.postSetup 1, SearchOp.finished [], SearchOp.reconnectTimeout]
    (by decide) (by unfold singleDiscovery; decide)

/-! ## Pending actions -/

theorem hashContains_hashRemove {V : Type} (h : List (Nat × V)) (k : Nat) :
    hashContains (hashRemove h k) k = false := by
  simp [hashContains, hashRemove]

theorem onCommandExecuted_unknown (s : Plugin) (keba : KebaId) (requestId : RequestId)
    (success : Bool) (h : hashContains s.m_asyncActions requestId = false) :
    onCommandExecuted keba requestId success s = s := by
  simp [onCommandExecuted, h]

theorem onCommandExecuted_known (s : Plugin) (keba : KebaId) (thing : ThingId)
    (requestId : RequestId) (success : Bool)
    (hreg : hashContains s.m_asyncActions requestId = true)
    (hthing : s.senderThing keba = some thing) :
    (onCommandExecuted keba requestId success s).m_asyncActions
        = hashRemove s.m_asyncActions requestId ∧
    (onCommandExecuted keba requestId success s).finished
        = s.finished ++ [((hashValue s.m_asyncActions requestId default).id,
            if success = true then ThingErrorNoError else ThingErrorHardwareFailure)] := by
  simp only [onCommandExecuted, hreg, hthing, if_true]
  cases success
  · exact ⟨rfl, rfl⟩
  · simp only [if_true]
    split_ifs <;> exact ⟨rfl, rfl⟩

/-- C17: a command-executed notification whose request id is not in `m_asyncActions` returns the
plugin state unchanged.  For a registered request id (and a sender that belongs to a configured
thing) the handler removes the id from `m_asyncActions` and finishes the registered action once,
with no error on success and a hardware failure otherwise; any further notification for that
request id then changes nothing, so command completions finish the action at most once; the
same holds after the abort handler has removed the request id. -/
theorem command_completion_finishes_once (s : Plugin) (keba : KebaId) (thing : ThingId)
    (requestId : RequestId) (success : Bool)
    (hreg : hashContains s.m_asyncActions requestId = true)
    (hthing : s.senderThing keba = some thing) :
    (∀ (keba' : KebaId) (requestId' : RequestId) (success' : Bool),
      hashContains s.m_asyncActions requestId' = false →
        onCommandExecuted keba' requestId' success' s = s) ∧
    hashContains (onCommandExecuted keba requestId success s).m_asyncActions requestId = false ∧
    (onCommandExecuted keba requestId success s).finished
        = s.finished ++ [((hashValue s.m_asyncActions requestId default).id,
            if success = true then ThingErrorNoError else ThingErrorHardwareFailure)] ∧
    (∀ (keba' : KebaId) (success' : Bool),
      onCommandExecuted keba' requestId success' (onCommandExecuted keba requestId success s)
        = onCommandExecuted keba requestId success s) ∧
    (∀ (keba' : KebaId) (success' : Bool),
      onCommandExecuted keba' requestId success' (actionAborted requestId s)
        = actionAborted requestId s) := by
  have h := onCommandExecuted_known s keba thing requestId success hreg hthing
  have hgone :
      hashContains (onCommandExecuted keba requestId success s).m_asyncActions requestId
        = false := by
    rw [h.1]
    exact hashContains_hashRemove _ _
  exact ⟨fun keba' requestId' success' h' => onCommandExecuted_unknown s keba' requestId' success' h',
    hgone, h.2, fun keba' success' => onCommandExecuted_unknown _ keba' requestId success' hgone,
    fun keba' success' => onCommandExecuted_unknown _ keba' requestId success'
      (hashContains_hashRemove _ _)⟩

theorem command_completion_finishes_once_witness :
    (∀ (keba' : KebaId) (requestId' : RequestId) (success' : Bool),
      hashContains pendingPlugin.m_asyncActions requestId' = false →
        onCommandExecuted keba' requestId' success' pendingPlugin = pendingPlugin) ∧
    hashContains (onCommandExecuted 7 9 true pendingPlugin).m_asyncActions 9 = false ∧
    (onCommandExecuted 7 9 true pendingPlugin).finished
        = pendingPlugin.finished ++ [((hashValue pendingPlugin.m_asyncActions 9 default).id,
            if true = true then ThingErrorNoError else ThingErrorHardwareFailure)] ∧
    (∀ (keba' : KebaId) (success' : Bool),
      onCommandExecuted keba' 9 success' (onCommandExecuted 7 9 true pendingPlugin)
        = onCommandExecuted 7 9 true pendingPlugin) ∧
    (∀ (keba' : KebaId) (success' : Bool),
      onCommandExecuted keba' 9 success' (actionAborted 9 pendingPlugin)
        = actionAborted 9 pendingPlugin) :=
  command_completion_finishes_once pendingPlugin 7 1 9 true (by decide) (by decide)

/-! ## `setupThing` for an address that is already in use -/

theorem searchNetworkDevices_frame (s : Plugin) :
    (searchNetworkDevices s).finished = s.finished ∧
    (searchNetworkDevices s).m_kebaDevices = s.m_kebaDevices ∧
    (searchNetworkDevices s).kebaAddress = s.kebaAddress ∧
    (searchNetworkDevices s).kebaCount = s.kebaCount ∧
    (searchNetworkDevices s).calls = s.calls ∧
    (searchNetworkDevices s).things = s.things ∧
    (searchNetworkDevices s).m_kebaDataLayer = s.m_kebaDataLayer := by
  unfold searchNetworkDevices
  split_ifs <;> exact ⟨rfl, rfl, rfl, rfl, rfl, rfl, rfl⟩

theorem reconfigure_frame (thing : ThingId) (s : Plugin) :
    (reconfigure thing s).finished = s.finished ∧
    (reconfigure thing s).m_kebaDevices
      = (if thing ∈ s.myThings then hashRemove s.m_kebaDevices thing else s.m_kebaDevices) ∧
    (reconfigure thing s).kebaAddress = s.kebaAddress ∧
    (reconfigure thing s).kebaCount = s.kebaCount ∧
    (reconfigure thing s).calls = s.calls ∧
    (reconfigure thing s).things = s.things ∧
    (reconfigure thing s).m_kebaDataLayer = s.m_kebaDataLayer := by
  unfold reconfigure
  dsimp only
  split_ifs with h1 h2
  · have h := searchNetworkDevices_frame
      { s with m_kebaDevices := hashRemove (hashRemove s.m_kebaDevices thing) thing }
    refine ⟨h.1, ?_, h.2.2.1, h.2.2.2.1, h.2.2.2.2.1, h.2.2.2.2.2.1, h.2.2.2.2.2.2⟩
    unfold kebaDestroyed
    rw [h.2.1]
    simp [hashRemove, List.filter_filter]
  · exact ⟨rfl, rfl, rfl, rfl, rfl, rfl, rfl⟩
  · exact ⟨rfl, rfl, rfl, rfl, rfl, rfl, rfl⟩

theorem setupSession_in_use (info : InfoId) (thing : ThingId) (s : Plugin)
    (h : ∃ p ∈ s.m_kebaDevices,
      s.kebaAddress p.2 = s.paramValue thing wallboxThingIpAddressParamTypeId) :
    setupSession info thing s = s.finish info ThingErrorThingInUse := by
  have hany : (s.m_kebaDevices.any (fun p =>
      decide (s.kebaAddress p.2 = s.paramValue thing wallboxThingIpAddressParamTypeId)))
      = true := by
    rw [List.any_eq_true]
    obtain ⟨p, hp, hpa⟩ := h
    exact ⟨p, hp, by simpa using hpa⟩
  unfold setupSession
  dsimp only
  rw [if_pos hany]

/-- C18: `setupThing` for a wallbox thing whose IP parameter equals the address of a session
that is in the roster once the thing's own previous session has been taken out (reconfigure)
finishes with `ThingErrorThingInUse`, constructs no `KeContact`, calls no session and leaves
the roster as it was after that removal.  The data layer exists or can be created. -/
theorem setup_rejects_address_in_use (info : InfoId) (thing : ThingId) (initOk : Bool)
    (s : Plugin)
    (hclass : (s.things thing).thingClassId = wallboxThingClassId)
    (hlayer : s.m_kebaDataLayer = true ∨ initOk = true)
    (hinuse : ∃ p ∈ (if thing ∈ s.myThings then hashRemove s.m_kebaDevices thing
        else s.m_kebaDevices),
      s.kebaAddress p.2 = s.paramValue thing wallboxThingIpAddressParamTypeId) :
    (setupThing info thing initOk s).finished = s.finished ++ [(info, ThingErrorThingInUse)] ∧
    (setupThing info thing initOk s).kebaCount = s.kebaCount ∧
    (setupThing info thing initOk s).calls = s.calls ∧
    (setupThing info thing initOk s).m_kebaDevices
      = (if thing ∈ s.myThings then hashRemove s.m_kebaDevices thing else s.m_kebaDevices) := by
  obtain ⟨hfin, hdev, haddr, hcount, hcalls, hthings, hdl⟩ := reconfigure_frame thing s
  have hin : ∃ p ∈ (reconfigure thing s).m_kebaDevices,
      (reconfigure thing s).kebaAddress p.2
        = (reconfigure thing s).paramValue thing wallboxThingIpAddressParamTypeId := by
    rw [hdev, haddr]
    unfold Plugin.paramValue
    rw [hthings]
    exact hinuse
  have hfinal : ∀ t : Plugin, t.finished = (reconfigure thing s).finished →
      t.kebaCount = (reconfigure thing s).kebaCount → t.calls = (reconfigure thing s).calls →
      t.m_kebaDevices = (reconfigure thing s).m_kebaDevices →
      (t.finish info ThingErrorThingInUse).finished
          = s.finished ++ [(info, ThingErrorThingInUse)] ∧
      (t.finish info ThingErrorThingInUse).kebaCount = s.kebaCount ∧
      (t.finish info ThingErrorThingInUse).calls = s.calls ∧
      (t.finish info ThingErrorThingInUse).m_kebaDevices
        = (if thing ∈ s.myThings then hashRemove s.m_kebaDevices thing
            else s.m_kebaDevices) := by
    intro t h1 h2 h3 h4
    refine ⟨?_, h2.trans hcount, h3.trans hcalls, h4.trans hdev⟩
    show t.finished ++ _ = _
    rw [h1, hfin]
  unfold setupThing
  dsimp only
  rw [if_pos hclass]
  by_cases h1 : (reconfigure thing s).m_kebaDataLayer = false
  · have h2 : ¬ initOk = false := by
      rw [hdl] at h1
      rcases hlayer with h | h
      · rw [h] at h1
        exact Bool.noConfusion h1
      · rw [h]
        exact fun h' => Bool.noConfusion h'
    rw [if_pos h1, if_neg h2,
      setupSession_in_use info thing { reconfigure thing s with m_kebaDataLayer := true } hin]
    exact hfinal _ rfl rfl rfl rfl
  · rw [if_neg h1, setupSession_in_use info thing _ hin]
    exact hfinal _ rfl rfl rfl rfl

theorem setup_rejects_address_in_use_witness :
    (setupThing 3 2 false sameAddressPlugin).finished
      = sameAddressPlugin.finished ++ [(3, ThingErrorThingInUse)] ∧
    (setupThing 3 2 false sameAddressPlugin).kebaCount = sameAddressPlugin.kebaCount ∧
    (setupThing 3 2 false sameAddressPlugin).calls = sameAddressPlugin.calls ∧
    (setupThing 3 2 false sameAddressPlugin).m_kebaDevices
      = (if 2 ∈ sameAddressPlugin.myThings then hashRemove sameAddressPlugin.m_kebaDevices 2
        else sameAddressPlugin.m_kebaDevices) :=
  setup_rejects_address_in_use 3 2 false sameAddressPlugin (by decide)
    (Or.inl (by decide)) ⟨(1, 7), by decide, by decide⟩

/-! ## Descriptors of a user-initiated discovery -/

theorem discoveryDescriptor_congr (s t : Plugin) (result : KebaDiscoveryResult)
    (h1 : t.things = s.things) (h2 : t.myThings = s.myThings) :
    discoveryDescriptor t result = discoveryDescriptor s result := by
  unfold discoveryDescriptor Plugin.filterByParam Plugin.paramValue
  rw [h1, h2]

theorem addDescriptors_eq (info : InfoId) (results : List KebaDiscoveryResult) (s : Plugin) :
    results.foldl
        (fun acc result => acc.addThingDescriptor info (discoveryDescriptor acc result)) s
      = { s with descriptors :=
            s.descriptors ++ results.map (fun result => (info, discoveryDescriptor s result)) } := by
  induction results generalizing s with
  | nil => simp
  | cons result rest ih =>
    rw [List.foldl_cons, ih]
    have hc : (fun r : KebaDiscoveryResult =>
        (info, discoveryDescriptor (s.addThingDescriptor info (discoveryDescriptor s result)) r))
          = fun r => (info, discoveryDescriptor s r) :=
      funext fun r => congrArg (Prod.mk info) (discoveryDescriptor_congr s _ r rfl rfl)
    rw [hc]
    simp [Plugin.addThingDescriptor]

/-- C19: when a user-initiated discovery finishes, the handler adds one descriptor per discovery
result, in result order, each carrying the result's MAC address, IP address, product and serial
number as its parameters, and then finishes the discovery info once, with no error.  The
descriptor carries the id of the configured thing whose MAC parameter equals the result's MAC
address when there is exactly one such thing, and no thing id otherwise. -/
theorem discovery_adds_one_descriptor_per_result (info : InfoId)
    (results : List KebaDiscoveryResult) (s : Plugin) :
    (discoverThingsFinished info results s).descriptors
      = s.descriptors ++ results.map (fun result => (info, discoveryDescriptor s result)) ∧
    (discoverThingsFinished info results s).finished
      = s.finished ++ [(info, ThingErrorNoError)] ∧
    ∀ result : KebaDiscoveryResult,
      (discoveryDescriptor s result).params
        = [(wallboxThingMacAddressParamTypeId, result.macAddress),
           (wallboxThingIpAddressParamTypeId, result.address),
           (wallboxThingModelParamTypeId, result.product),
           (wallboxThingSerialNumberParamTypeId, result.serialNumber)] ∧
      (∀ thing : ThingId,
        s.filterByParam wallboxThingMacAddressParamTypeId result.macAddress = [thing] →
          (discoveryDescriptor s result).thingId = thing) ∧
      ((s.filterByParam wallboxThingMacAddressParamTypeId result.macAddress).length ≠ 1 →
          (discoveryDescriptor s result).thingId = 0) := by
  refine ⟨?_, ?_, fun result => ⟨rfl, ?_, ?_⟩⟩
  · unfold discoverThingsFinished
    dsimp only
    rw [addDescriptors_eq]
    rfl
  · unfold discoverThingsFinished
    dsimp only
    rw [addDescriptors_eq]
    rfl
  · intro thing h
    simp [discoveryDescriptor, h]
  · intro h
    simp [discoveryDescriptor, h]

/-! ## Registration of pending actions -/

/-- C20: when `executeAction` reaches a session method (wallbox thing, session registered and
reachable, action type handled) and the session returns the null request id, the action is
finished at once with a hardware failure and `m_asyncActions` is left as it was; when the
returned request id is not null, the action info is inserted into `m_asyncActions` under that
request id and the action is not finished. -/
theorem execute_action_registers_iff_request (info : ActionInfo)
    (reply : KeContactCall → RequestId) (s : Plugin) (c : KeContactCall)
    (hclass : (s.things info.thing).thingClassId = wallboxThingClassId)
    (hkeba : hashValue s.m_kebaDevices info.thing 0 ≠ 0)
    (hreachable : s.kebaReachable (hashValue s.m_kebaDevices info.thing 0) = true)
    (hcall : actionCall info.action = some c) :
    (reply c = 0 →
      (executeAction info reply s).finished
          = s.finished ++ [(info.id, ThingErrorHardwareFailure)] ∧
      (executeAction info reply s).m_asyncActions = s.m_asyncActions) ∧
    (reply c ≠ 0 →
      (executeAction info reply s).m_asyncActions = hashInsert s.m_asyncActions (reply c) info ∧
      (executeAction info reply s).finished = s.finished) := by
  unfold executeAction
  simp only [hclass, hkeba, hreachable, hcall, if_true, if_false, Bool.true_eq_false]
  constructor
  · intro h
    rw [if_pos h]
    exact ⟨rfl, rfl⟩
  · intro h
    rw [if_neg h]
    exact ⟨rfl, rfl⟩

theorem execute_action_registers_iff_request_witness :
    ((executeAction sampleActionInfo (fun _ => 0)
        (wallboxPlugin "AA:BB:CC:DD:EE:01" "192.168.0.10" true)).finished
        = (wallboxPlugin "AA:BB:CC:DD:EE:01" "192.168.0.10" true).finished
            ++ [(sampleActionInfo.id, ThingErrorHardwareFailure)] ∧
      (executeAction sampleActionInfo (fun _ => 0)
        (wallboxPlugin "AA:BB:CC:DD:EE:01" "192.168.0.10" true)).m_asyncActions
        = (wallboxPlugin "AA:BB:CC:DD:EE:01" "192.168.0.10" true).m_asyncActions) ∧
    ((executeAction sampleActionInfo (fun _ => 9)
        (wallboxPlugin "AA:BB:CC:DD:EE:01" "192.168.0.10" true)).m_asyncActions
        = hashInsert (wallboxPlugin "AA:BB:CC:DD:EE:01" "192.168.0.10" true).m_asyncActions 9
            sampleActionInfo ∧
      (executeAction sampleActionInfo (fun _ => 9)
        (wallboxPlugin "AA:BB:CC:DD:EE:01" "192.168.0.10" true)).finished
        = (wallboxPlugin "AA:BB:CC:DD:EE:01" "192.168.0.10" true).finished) :=
  ⟨(execute_action_registers_iff_request sampleActionInfo (fun _ => 0)
      (wallboxPlugin "AA:BB:CC:DD:EE:01" "192.168.0.10" true)
      (KeContactCall.setMaxAmpereGeneral 16000) (by decide) (by decide) (by decide)
      (by decide)).1 rfl,
   (execute_action_registers_iff_request sampleActionInfo (fun _ => 9)
      (wallboxPlugin "AA:BB:CC:DD:EE:01" "192.168.0.10" true)
      (KeContactCall.setMaxAmpereGeneral 16000) (by decide) (by decide) (by decide)
      (by decide)).2 (by decide)⟩

/-! ## Parameters during reconciliation -/

theorem paramValue_setParamValue (s : Plugin) (thing other : ThingId) (p q : ParamTypeId)
    (v : String) :
    (s.setParamValue thing p v).paramValue other q
      = if other = thing ∧ q = p then v else s.paramValue other q := by
  unfold Plugin.setParamValue Plugin.paramValue
  dsimp only
  by_cases h1 : other = thing
  · by_cases h2 : q = p
    · simp [h1, h2]
    · simp [h1, h2]
  · simp [h1]

theorem setParamValue_self (s : Plugin) (thing : ThingId) (p : ParamTypeId) :
    s.setParamValue thing p (s.paramValue thing p) = s := by
  unfold Plugin.setParamValue Plugin.paramValue
  have h : (fun i => if i = thing then
      { s.things i with params := fun q => if q = p then (s.things thing).params p
          else (s.things i).params q }
      else s.things i) = s.things := by
    funext i
    by_cases hi : i = thing
    · subst hi
      rw [if_pos rfl]
      have hp : (fun q => if q = p then (s.things i).params p else (s.things i).params q)
          = (s.things i).params := by
        funext q
        by_cases hq : q = p
        · rw [if_pos hq, hq]
        · rw [if_neg hq]
      rw [hp]
    · rw [if_neg hi]
  rw [h]

theorem paramStep_refl (result : KebaDiscoveryResult) (s : Plugin) : paramStep result s s :=
  fun _ => ⟨Or.inl rfl, Or.inl rfl⟩

theorem paramStep_trans {result : KebaDiscoveryResult} {s t u : Plugin}
    (h1 : paramStep result s t) (h2 : paramStep result t u) : paramStep result s u := by
  intro thing
  obtain ⟨hm1, hi1⟩ := h1 thing
  obtain ⟨hm2, hi2⟩ := h2 thing
  constructor
  · rcases hm2 with hm2 | ⟨ha, hb, hc⟩
    · rcases hm1 with hm1 | ⟨hd, he, hf⟩
      · exact Or.inl (hm2.trans hm1)
      · exact Or.inr ⟨hd, he, hm2.trans hf⟩
    · have hs : s.paramValue thing wallboxThingMacAddressParamTypeId = "" := by
        rcases hm1 with hm1 | ⟨hd, _, _⟩
        · rw [← hm1]
          exact ha
        · exact hd
      refine Or.inr ⟨hs, ?_, hc⟩
      rcases hi1 with hi1 | ⟨_, hne, _⟩
      · rw [← hi1]
        exact hb
      · exact absurd hs hne
  · rcases hi2 with hi2 | ⟨ha, hb, hc⟩
    · rcases hi1 with hi1 | ⟨hd, he, hf⟩
      · exact Or.inl (hi2.trans hi1)
      · exact Or.inr ⟨hd, he, hi2.trans hf⟩
    · rcases hm1 with hm1 | ⟨_, he, _⟩
      · exact Or.inr ⟨by rw [← hm1]; exact ha, by rw [← hm1]; exact hb, hc⟩
      · exact Or.inl (hc.trans he.symm)

theorem paramStep_setMac (result : KebaDiscoveryResult) (s : Plugin) (thing : ThingId)
    (h1 : s.paramValue thing wallboxThingMacAddressParamTypeId = "")
    (h2 : s.paramValue thing wallboxThingIpAddressParamTypeId = result.address) :
    paramStep result s
      (s.setParamValue thing wallboxThingMacAddressParamTypeId result.macAddress) := by
  intro other
  rw [paramValue_setParamValue, paramValue_setParamValue]
  by_cases h : other = thing
  · subst h
    simp [h1, h2]
  · simp [h]

theorem paramStep_setIp (result : KebaDiscoveryResult) (s : Plugin) (thing : ThingId)
    (h1 : s.paramValue thing wallboxThingMacAddressParamTypeId ≠ "")
    (h2 : s.paramValue thing wallboxThingMacAddressParamTypeId = result.macAddress) :
    paramStep result s
      (s.setParamValue thing wallboxThingIpAddressParamTypeId result.address) := by
  intro other
  rw [paramValue_setParamValue, paramValue_setParamValue]
  have h3 : result.macAddress ≠ "" := h2 ▸ h1
  by_cases h : other = thing
  · subst h
    simp [h2, h3]
  · simp [h]

theorem paramStep_reconcileThing (result : KebaDiscoveryResult) (thing : ThingId)
    (s : Plugin) : paramStep result s (reconcileThing result thing s).1 := by
  unfold reconcileThing
  dsimp only
  split_ifs with h1 h2 h3 h4 h5
  · exact paramStep_setMac result s thing h1 h2
  · exact paramStep_refl result s
  · exact paramStep_setIp result s thing h1 h3
  · exact paramStep_setIp result s thing h1 h3
  · exact paramStep_refl result s
  · exact paramStep_refl result s

theorem paramStep_reconcileThings (result : KebaDiscoveryResult) (l : List ThingId)
    (s : Plugin) : paramStep result s (reconcileThings result l s) := by
  induction l generalizing s with
  | nil => exact paramStep_refl result s
  | cons thing rest ih =>
    unfold reconcileThings
    split_ifs
    · exact paramStep_reconcileThing result thing s
    · exact paramStep_trans (paramStep_reconcileThing result thing s) (ih _)

theorem reconcileThings_cons (result : KebaDiscoveryResult) (thing : ThingId)
    (rest : List ThingId) (s : Plugin) :
    reconcileThings result (thing :: rest) s =
      if (reconcileThing result thing s).2 = true then (reconcileThing result thing s).1
      else reconcileThings result rest (reconcileThing result thing s).1 := rfl

theorem settled_cons (result : KebaDiscoveryResult) (thing : ThingId) (rest : List ThingId)
    (s : Plugin) :
    settled result (thing :: rest) s =
      if s.paramValue thing wallboxThingMacAddressParamTypeId = "" then
        (s.paramValue thing wallboxThingIpAddressParamTypeId = result.address →
          result.macAddress = "") ∧ settled result rest s
      else if s.paramValue thing wallboxThingMacAddressParamTypeId = result.macAddress then
        s.paramValue thing wallboxThingIpAddressParamTypeId = result.address
      else settled result rest s := rfl

theorem reconcileThing_adopt (result : KebaDiscoveryResult) (thing : ThingId) (s : Plugin)
    (h1 : s.paramValue thing wallboxThingMacAddressParamTypeId = "")
    (h2 : s.paramValue thing wallboxThingIpAddressParamTypeId = result.address) :
    reconcileThing result thing s
      = (s.setParamValue thing wallboxThingMacAddressParamTypeId result.macAddress, false) := by
  simp [reconcileThing, h1, h2]

theorem reconcileThing_other_address (result : KebaDiscoveryResult) (thing : ThingId)
    (s : Plugin) (h1 : s.paramValue thing wallboxThingMacAddressParamTypeId = "")
    (h2 : s.paramValue thing wallboxThingIpAddressParamTypeId ≠ result.address) :
    reconcileThing result thing s = (s, false) := by
  simp [reconcileThing, h1, h2]

theorem reconcileThing_other_mac (result : KebaDiscoveryResult) (thing : ThingId)
    (s : Plugin) (h1 : s.paramValue thing wallboxThingMacAddressParamTypeId ≠ "")
    (h2 : s.paramValue thing wallboxThingMacAddressParamTypeId ≠ result.macAddress) :
    reconcileThing result thing s = (s, false) := by
  simp [reconcileThing, h1, h2]

theorem reconcileThing_unchanged (result : KebaDiscoveryResult) (thing : ThingId)
    (s : Plugin) (h1 : s.paramValue thing wallboxThingMacAddressParamTypeId ≠ "")
    (h2 : s.paramValue thing wallboxThingMacAddressParamTypeId = result.macAddress)
    (h3 : s.paramValue thing wallboxThingIpAddressParamTypeId = result.address) :
    reconcileThing result thing s = (s, true) := by
  unfold reconcileThing
  dsimp only
  rw [if_neg h1, if_pos h2, if_neg (not_not.mpr h3)]

theorem reconcileThing_moved (result : KebaDiscoveryResult) (thing : ThingId)
    (s : Plugin) (h1 : s.paramValue thing wallboxThingMacAddressParamTypeId ≠ "")
    (h2 : s.paramValue thing wallboxThingMacAddressParamTypeId = result.macAddress)
    (h3 : s.paramValue thing wallboxThingIpAddressParamTypeId ≠ result.address) :
    reconcileThing result thing s =
      (if hashValue s.m_kebaDevices thing 0 ≠ 0 then
          (((s.setParamValue thing wallboxThingIpAddressParamTypeId result.address).setAddress
            (hashValue s.m_kebaDevices thing 0) result.address).call
            (hashValue s.m_kebaDevices thing 0) KeContactCall.getReport2).call
            (hashValue s.m_kebaDevices thing 0) KeContactCall.getReport3
        else s.setParamValue thing wallboxThingIpAddressParamTypeId result.address, true) := by
  unfold reconcileThing
  dsimp only
  rw [if_neg h1, if_pos h2, if_pos h3]
  have hk : (s.setParamValue thing wallboxThingIpAddressParamTypeId result.address).m_kebaDevices
      = s.m_kebaDevices := rfl
  rw [hk]
  split_ifs <;> rfl

theorem reconcileThing_of_settled (result : KebaDiscoveryResult) (thing : ThingId)
    (rest : List ThingId) (s : Plugin) (h : settled result (thing :: rest) s) :
    (reconcileThing result thing s).1 = s ∧
    ((reconcileThing result thing s).2 = false → settled result rest s) := by
  rw [settled_cons] at h
  by_cases h1 : s.paramValue thing wallboxThingMacAddressParamTypeId = ""
  · rw [if_pos h1] at h
    by_cases h2 : s.paramValue thing wallboxThingIpAddressParamTypeId = result.address
    · rw [reconcileThing_adopt result thing s h1 h2, h.1 h2]
      refine ⟨?_, fun _ => h.2⟩
      show s.setParamValue thing wallboxThingMacAddressParamTypeId "" = s
      have := setParamValue_self s thing wallboxThingMacAddressParamTypeId
      rw [h1] at this
      exact this
    · rw [reconcileThing_other_address result thing s h1 h2]
      exact ⟨rfl, fun _ => h.2⟩
  · rw [if_neg h1] at h
    by_cases h2 : s.paramValue thing wallboxThingMacAddressParamTypeId = result.macAddress
    · rw [if_pos h2] at h
      rw [reconcileThing_unchanged result thing s h1 h2 h]
      exact ⟨rfl, fun hb => Bool.noConfusion hb⟩
    · rw [if_neg h2] at h
      rw [reconcileThing_other_mac result thing s h1 h2]
      exact ⟨rfl, fun _ => h⟩

theorem reconcileThings_of_settled (result : KebaDiscoveryResult) (l : List ThingId)
    (s : Plugin) (h : settled result l s) : reconcileThings result l s = s := by
  induction l with
  | nil => rfl
  | cons thing rest ih =>
    obtain ⟨h1, h2⟩ := reconcileThing_of_settled result thing rest s h
    rw [reconcileThings_cons]
    split_ifs with hb
    · exact h1
    · rw [h1]
      exact ih (h2 (by simpa using hb))

theorem settled_reconcileThings (result : KebaDiscoveryResult) (l : List ThingId)
    (s : Plugin) : settled result l (reconcileThings result l s) := by
  induction l generalizing s with
  | nil => trivial
  | cons thing rest ih =>
    rw [reconcileThings_cons, settled_cons]
    by_cases h1 : s.paramValue thing wallboxThingMacAddressParamTypeId = ""
    · by_cases h2 : s.paramValue thing wallboxThingIpAddressParamTypeId = result.address
      · rw [reconcileThing_adopt result thing s h1 h2]
        simp only [Bool.false_eq_true, if_false]
        obtain ⟨hm, hi⟩ := paramStep_reconcileThings result rest
          (s.setParamValue thing wallboxThingMacAddressParamTypeId result.macAddress) thing
        rw [paramValue_setParamValue] at hm hi
        simp only [true_and, if_true] at hm
        have hmac : (reconcileThings result rest
            (s.setParamValue thing wallboxThingMacAddressParamTypeId
              result.macAddress)).paramValue thing wallboxThingMacAddressParamTypeId
            = result.macAddress := by
          rcases hm with hm | ⟨_, _, hm⟩ <;> exact hm
        have hip : (reconcileThings result rest
            (s.setParamValue thing wallboxThingMacAddressParamTypeId
              result.macAddress)).paramValue thing wallboxThingIpAddressParamTypeId
            = result.address := by
          rcases hi with hi | ⟨_, _, hi⟩
          · rw [hi]
            simpa using h2
          · exact hi
        rw [hmac, hip]
        by_cases h3 : result.macAddress = ""
        · rw [if_pos h3]
          exact ⟨fun _ => h3, ih _⟩
        · rw [if_neg h3, if_pos rfl]
      · rw [reconcileThing_other_address result thing s h1 h2]
        simp only [Bool.false_eq_true, if_false]
        obtain ⟨hm, hi⟩ := paramStep_reconcileThings result rest s thing
        have hmac : (reconcileThings result rest s).paramValue thing
            wallboxThingMacAddressParamTypeId = "" := by
          rcases hm with hm | ⟨_, he, _⟩
          · rw [hm, h1]
          · exact absurd he h2
        have hip : (reconcileThings result rest s).paramValue thing
            wallboxThingIpAddressParamTypeId
            = s.paramValue thing wallboxThingIpAddressParamTypeId := by
          rcases hi with hi | ⟨_, hne, _⟩
          · exact hi
          · exact absurd h1 hne
        rw [if_pos hmac, hip]
        exact ⟨fun h => absurd h h2, ih s⟩
    · by_cases h2 : s.paramValue thing wallboxThingMacAddressParamTypeId = result.macAddress
      · by_cases h3 : s.paramValue thing wallboxThingIpAddressParamTypeId = result.address
        · rw [reconcileThing_unchanged result thing s h1 h2 h3]
          simp only [if_true]
          rw [if_neg h1, if_pos h2]
          exact h3
        · rw [reconcileThing_moved result thing s h1 h2 h3]
          simp only [if_true]
          have hmac : ∀ t : Plugin, t.things
              = (s.setParamValue thing wallboxThingIpAddressParamTypeId result.address).things →
              settled result (thing :: rest) t := by
            intro t ht
            have hp : ∀ q, t.paramValue thing q
                = (s.setParamValue thing wallboxThingIpAddressParamTypeId
                    result.address).paramValue thing q := by
              intro q
              unfold Plugin.paramValue
              rw [ht]
            have h4 : result.macAddress ≠ "" := h2 ▸ h1
            rw [settled_cons, hp, hp, paramValue_setParamValue, paramValue_setParamValue]
            simp [h2, h4]
          have := hmac (if hashValue s.m_kebaDevices thing 0 ≠ 0 then
              (((s.setParamValue thing wallboxThingIpAddressParamTypeId
                result.address).setAddress (hashValue s.m_kebaDevices thing 0)
                result.address).call (hashValue s.m_kebaDevices thing 0)
                KeContactCall.getReport2).call (hashValue s.m_kebaDevices thing 0)
                KeContactCall.getReport3
            else s.setParamValue thing wallboxThingIpAddressParamTypeId result.address)
            (by split_ifs <;> rfl)
          rw [settled_cons] at this
          exact this
      · rw [reconcileThing_other_mac result thing s h1 h2]
        simp only [Bool.false_eq_true, if_false]
        obtain ⟨hm, _⟩ := paramStep_reconcileThings result rest s thing
        have hmac : (reconcileThings result rest s).paramValue thing
            wallboxThingMacAddressParamTypeId
            = s.paramValue thing wallboxThingMacAddressParamTypeId := by
          rcases hm with hm | ⟨he, _, _⟩
          · exact hm
          · exact absurd he h1
        rw [hmac, if_neg h1, if_neg h2]
        exact ih s

theorem settled_of_paramStep {result other : KebaDiscoveryResult} {s t : Plugin}
    (l : List ThingId) (hstep : paramStep other s t)
    (hmac : other.macAddress ≠ result.macAddress) (h : settled result l s) :
    settled result l t := by
  induction l with
  | nil => trivial
  | cons thing rest ih =>
    rw [settled_cons] at h ⊢
    obtain ⟨hm, hi⟩ := hstep thing
    by_cases h1 : s.paramValue thing wallboxThingMacAddressParamTypeId = ""
    · rw [if_pos h1] at h
      have hip : t.paramValue thing wallboxThingIpAddressParamTypeId
          = s.paramValue thing wallboxThingIpAddressParamTypeId := by
        rcases hi with hi | ⟨_, hne, _⟩
        · exact hi
        · exact absurd h1 hne
      rcases hm with hm | ⟨_, _, hm⟩
      · rw [hm, if_pos h1, hip]
        exact ⟨h.1, ih h.2⟩
      · rw [hm]
        by_cases h2 : other.macAddress = ""
        · rw [if_pos h2, hip]
          exact ⟨h.1, ih h.2⟩
        · rw [if_neg h2, if_neg hmac]
          exact ih h.2
    · rw [if_neg h1] at h
      have hmt : t.paramValue thing wallboxThingMacAddressParamTypeId
          = s.paramValue thing wallboxThingMacAddressParamTypeId := by
        rcases hm with hm | ⟨he, _, _⟩
        · exact hm
        · exact absurd he h1
      rw [hmt, if_neg h1]
      by_cases h2 : s.paramValue thing wallboxThingMacAddressParamTypeId = result.macAddress
      · rw [if_pos h2] at h ⊢
        rcases hi with hi | ⟨he, _, _⟩
        · rw [hi]
          exact h
        · exact absurd (he.symm.trans h2) hmac
      · rw [if_neg h2] at h ⊢
        exact ih h

/-! ## Idempotence of the reconciliation pass -/

theorem reconcile_cons (result : KebaDiscoveryResult) (rest : List KebaDiscoveryResult)
    (s : Plugin) : reconcile (result :: rest) s = reconcile rest (reconcileResult s result) :=
  rfl

theorem reconcile_append (before after : List KebaDiscoveryResult) (s : Plugin) :
    reconcile (before ++ after) s = reconcile after (reconcile before s) := by
  unfold reconcile
  rw [List.foldl_append]

theorem settled_reconcile_others (result : KebaDiscoveryResult) (l : List ThingId)
    (others : List KebaDiscoveryResult) (s : Plugin)
    (hothers : ∀ other ∈ others, other.macAddress ≠ result.macAddress)
    (h : settled result l s) : settled result l (reconcile others s) := by
  induction others generalizing s with
  | nil => exact h
  | cons other rest ih =>
    rw [reconcile_cons]
    exact ih _ (fun o ho => hothers o (List.mem_cons_of_mem _ ho))
      (settled_of_paramStep l (paramStep_reconcileThings other s.wallboxThings s)
        (hothers other (List.mem_cons_self _ _)) h)

theorem settled_after_reconcile (results : List KebaDiscoveryResult) (s : Plugin)
    (hpair : results.Pairwise (fun a b => a.macAddress ≠ b.macAddress)) :
    ∀ result ∈ results,
      settled result (reconcile results s).wallboxThings (reconcile results s) := by
  induction results generalizing s with
  | nil => intro result h; cases h
  | cons first rest ih =>
    rw [List.pairwise_cons] at hpair
    intro result hmem
    rw [reconcile_cons]
    rcases List.mem_cons.1 hmem with h | h
    · subst h
      have hw : (reconcile rest (reconcileResult s result)).wallboxThings = s.wallboxThings :=
        wallboxThings_of_sameFrame
          (sameFrame_trans (sameFrame_reconcileThings result s.wallboxThings s)
            (sameFrame_reconcile rest _))
      rw [hw]
      exact settled_reconcile_others result s.wallboxThings rest _
        (fun o ho => (hpair.1 o ho).symm) (settled_reconcileThings result s.wallboxThings s)
    · exact ih (reconcileResult s first) hpair.2 result h

theorem reconcile_of_settled (results : List KebaDiscoveryResult) (s : Plugin)
    (h : ∀ result ∈ results, settled result s.wallboxThings s) : reconcile results s = s := by
  induction results with
  | nil => rfl
  | cons first rest ih =>
    have h1 : reconcileResult s first = s :=
      reconcileThings_of_settled first s.wallboxThings s (h first (List.mem_cons_self _ _))
    rw [reconcile_cons, h1]
    exact ih (fun r hr => h r (List.mem_cons_of_mem _ hr))

/-- C12 fails: for a wallbox at "192.168.0.10" and a result list that names its MAC address
twice, with the addresses "192.168.0.20" and "192.168.0.21", a second reconciliation pass
right after the first one again calls the session six times (two address changes, each with the
two report requests). -/
theorem second_pass_mutates_on_repeated_mac :
    (reconcile
      [sampleResult "192.168.0.20" "AA:BB:CC:DD:EE:01",
        sampleResult "192.168.0.21" "AA:BB:CC:DD:EE:01"]
      (wallboxPlugin "AA:BB:CC:DD:EE:01" "192.168.0.10" true)).calls.length = 6 ∧
    (reconcile
      [sampleResult "192.168.0.20" "AA:BB:CC:DD:EE:01",
        sampleResult "192.168.0.21" "AA:BB:CC:DD:EE:01"]
      (reconcile
        [sampleResult "192.168.0.20" "AA:BB:CC:DD:EE:01",
          sampleResult "192.168.0.21" "AA:BB:CC:DD:EE:01"]
        (wallboxPlugin "AA:BB:CC:DD:EE:01" "192.168.0.10" true))).calls.length = 12 := by
  refine ⟨by decide, by decide⟩

/-- C12 as amended: visiting, for a discovery result, a thing whose non-empty MAC parameter
equals the result's MAC address and whose IP parameter equals the result's address changes
nothing (no parameter, no session address, no request) and ends the loop over the things; and
when no two results of a list carry the same MAC address, a second reconciliation pass over the
list right after a first one leaves the whole plugin state, call log included, as the first
pass left it. -/
theorem reconciliation_is_idempotent (results : List KebaDiscoveryResult) (s : Plugin)
    (hpair : results.Pairwise (fun a b => a.macAddress ≠ b.macAddress)) :
    (∀ (result : KebaDiscoveryResult) (thing : ThingId) (t : Plugin),
      t.paramValue thing wallboxThingMacAddressParamTypeId ≠ "" →
      t.paramValue thing wallboxThingMacAddressParamTypeId = result.macAddress →
      t.paramValue thing wallboxThingIpAddressParamTypeId = result.address →
        reconcileThing result thing t = (t, true)) ∧
    reconcile results (reconcile results s) = reconcile results s :=
  ⟨fun result thing t h1 h2 h3 => reconcileThing_unchanged result thing t h1 h2 h3,
    reconcile_of_settled results _ (settled_after_reconcile results s hpair)⟩

theorem reconciliation_is_idempotent_witness :
    (∀ (result : KebaDiscoveryResult) (thing : ThingId) (t : Plugin),
      t.paramValue thing wallboxThingMacAddressParamTypeId ≠ "" →
      t.paramValue thing wallboxThingMacAddressParamTypeId = result.macAddress →
      t.paramValue thing wallboxThingIpAddressParamTypeId = result.address →
        reconcileThing result thing t = (t, true)) ∧
    reconcile
      [sampleResult "192.168.0.20" "AA:BB:CC:DD:EE:01",
        sampleResult "192.168.0.30" "AA:BB:CC:DD:EE:02"]
      (reconcile
        [sampleResult "192.168.0.20" "AA:BB:CC:DD:EE:01",
          sampleResult "192.168.0.30" "AA:BB:CC:DD:EE:02"] sameMacPlugin)
      = reconcile
        [sampleResult "192.168.0.20" "AA:BB:CC:DD:EE:01",
          sampleResult "192.168.0.30" "AA:BB:CC:DD:EE:02"] sameMacPlugin :=
  reconciliation_is_idempotent
    [sampleResult "192.168.0.20" "AA:BB:CC:DD:EE:01",
      sampleResult "192.168.0.30" "AA:BB:CC:DD:EE:02"] sameMacPlugin (by decide)

/-! ## Address change of a known wallbox -/

theorem kept_of_paramStep {other : KebaDiscoveryResult} {s t : Plugin} (m : String)
    (hstep : paramStep other s t) (hm : m ≠ "") (hother : other.macAddress ≠ m) :
    (∀ thing : ThingId, s.paramValue thing wallboxThingMacAddressParamTypeId = m →
      t.paramValue thing wallboxThingMacAddressParamTypeId = m ∧
      t.paramValue thing wallboxThingIpAddressParamTypeId
        = s.paramValue thing wallboxThingIpAddressParamTypeId) ∧
    (∀ thing : ThingId, s.paramValue thing wallboxThingMacAddressParamTypeId ≠ m →
      t.paramValue thing wallboxThingMacAddressParamTypeId ≠ m) := by
  constructor
  · intro thing h
    obtain ⟨h1, h2⟩ := hstep thing
    constructor
    · rcases h1 with h1 | ⟨he, _, _⟩
      · rw [h1, h]
      · exact absurd (he.symm.trans h).symm hm
    · rcases h2 with h2 | ⟨he, _, _⟩
      · exact h2
      · exact absurd (he.symm.trans h) hother
  · intro thing h
    obtain ⟨h1, _⟩ := hstep thing
    rcases h1 with h1 | ⟨_, _, he⟩
    · rw [h1]
      exact h
    · rw [he]
      exact hother

theorem kept_by_reconcile (m : String) (others : List KebaDiscoveryResult) (s : Plugin)
    (hm : m ≠ "") (hothers : ∀ other ∈ others, other.macAddress ≠ m) :
    (∀ thing : ThingId, s.paramValue thing wallboxThingMacAddressParamTypeId = m →
      (reconcile others s).paramValue thing wallboxThingMacAddressParamTypeId = m ∧
      (reconcile others s).paramValue thing wallboxThingIpAddressParamTypeId
        = s.paramValue thing wallboxThingIpAddressParamTypeId) ∧
    (∀ thing : ThingId, s.paramValue thing wallboxThingMacAddressParamTypeId ≠ m →
      (reconcile others s).paramValue thing wallboxThingMacAddressParamTypeId ≠ m) := by
  induction others generalizing s with
  | nil => exact ⟨fun _ h => ⟨h, rfl⟩, fun _ h => h⟩
  | cons other rest ih =>
    rw [reconcile_cons]
    obtain ⟨k1, k2⟩ := kept_of_paramStep m
      (paramStep_reconcileThings other s.wallboxThings s) hm
      (hothers other (List.mem_cons_self _ _))
    obtain ⟨i1, i2⟩ := ih (reconcileResult s other)
      (fun o ho => hothers o (List.mem_cons_of_mem _ ho))
    constructor
    · intro thing h
      obtain ⟨a, b⟩ := k1 thing h
      obtain ⟨c, d⟩ := i1 thing a
      exact ⟨c, d.trans b⟩
    · intro thing h
      exact i2 thing (k2 thing h)

theorem calls_reconcileThing (result : KebaDiscoveryResult) (thing : ThingId) (s : Plugin) :
    ∃ c, (reconcileThing result thing s).1.calls = s.calls ++ c := by
  unfold reconcileThing
  dsimp only
  split_ifs
  · exact ⟨[], by simp [Plugin.setParamValue]⟩
  · exact ⟨[], by simp⟩
  · exact ⟨[(hashValue s.m_kebaDevices thing 0, KeContactCall.setAddress result.address),
      (hashValue s.m_kebaDevices thing 0, KeContactCall.getReport2),
      (hashValue s.m_kebaDevices thing 0, KeContactCall.getReport3)],
      by simp [Plugin.call, Plugin.setAddress, Plugin.setParamValue]⟩
  · exact ⟨[], by simp [Plugin.setParamValue]⟩
  · exact ⟨[], by simp⟩
  · exact ⟨[], by simp⟩

theorem calls_reconcileThings (result : KebaDiscoveryResult) (l : List ThingId) (s : Plugin) :
    ∃ c, (reconcileThings result l s).calls = s.calls ++ c := by
  induction l generalizing s with
  | nil => exact ⟨[], by simp [reconcileThings]⟩
  | cons thing rest ih =>
    rw [reconcileThings_cons]
    obtain ⟨c1, h1⟩ := calls_reconcileThing result thing s
    split_ifs
    · exact ⟨c1, h1⟩
    · obtain ⟨c2, h2⟩ := ih (reconcileThing result thing s).1
      exact ⟨c1 ++ c2, by rw [h2, h1, List.append_assoc]⟩

theorem calls_reconcile (results : List KebaDiscoveryResult) (s : Plugin) :
    ∃ c, (reconcile results s).calls = s.calls ++ c := by
  induction results generalizing s with
  | nil => exact ⟨[], by simp [reconcile]⟩
  | cons result rest ih =>
    rw [reconcile_cons]
    obtain ⟨c1, h1⟩ := calls_reconcileThings result s.wallboxThings s
    obtain ⟨c2, h2⟩ := ih (reconcileResult s result)
    exact ⟨c1 ++ c2, by rw [h2]; unfold reconcileResult; rw [h1, List.append_assoc]⟩

theorem reconcileThings_moves (result : KebaDiscoveryResult) (l : List ThingId) (s : Plugin)
    (thing : ThingId) (hmem : thing ∈ l) (hnodup : l.Nodup)
    (hmac : s.paramValue thing wallboxThingMacAddressParamTypeId = result.macAddress)
    (hne : result.macAddress ≠ "")
    (hip : s.paramValue thing wallboxThingIpAddressParamTypeId ≠ result.address)
    (huniq : ∀ other ∈ l, other ≠ thing →
      s.paramValue other wallboxThingMacAddressParamTypeId ≠ result.macAddress) :
    (reconcileThings result l s).paramValue thing wallboxThingIpAddressParamTypeId
      = result.address ∧
    (reconcileThings result l s).paramValue thing wallboxThingMacAddressParamTypeId
      = result.macAddress ∧
    (hashValue s.m_kebaDevices thing 0 ≠ 0 →
      (reconcileThings result l s).calls = s.calls ++
        [(hashValue s.m_kebaDevices thing 0, KeContactCall.setAddress result.address),
         (hashValue s.m_kebaDevices thing 0, KeContactCall.getReport2),
         (hashValue s.m_kebaDevices thing 0, KeContactCall.getReport3)] ∧
      (reconcileThings result l s).kebaAddress (hashValue s.m_kebaDevices thing 0)
        = result.address) := by
  induction l generalizing s with
  | nil => cases hmem
  | cons head rest ih =>
    rw [reconcileThings_cons]
    rw [List.nodup_cons] at hnodup
    by_cases hhead : head = thing
    · subst hhead
      have hne' : s.paramValue head wallboxThingMacAddressParamTypeId ≠ "" := by
        rw [hmac]
        exact hne
      rw [reconcileThing_moved result head s hne' hmac hip]
      simp only [if_true]
      by_cases hk : hashValue s.m_kebaDevices head 0 ≠ 0
      · rw [if_pos hk]
        refine ⟨?_, ?_, fun _ => ⟨?_, ?_⟩⟩
        · show (s.setParamValue head wallboxThingIpAddressParamTypeId
            result.address).paramValue head wallboxThingIpAddressParamTypeId = _
          rw [paramValue_setParamValue]
          simp
        · show (s.setParamValue head wallboxThingIpAddressParamTypeId
            result.address).paramValue head wallboxThingMacAddressParamTypeId = _
          rw [paramValue_setParamValue]
          simpa using hmac
        · simp [Plugin.call, Plugin.setAddress, Plugin.setParamValue]
        · simp [Plugin.call, Plugin.setAddress, Plugin.setParamValue]
      · rw [if_neg hk]
        refine ⟨?_, ?_, fun h => absurd h hk⟩
        · rw [paramValue_setParamValue]
          simp
        · rw [paramValue_setParamValue]
          simpa using hmac
    · have hmem' : thing ∈ rest := by
        rcases List.mem_cons.1 hmem with h | h
        · exact absurd h.symm hhead
        · exact h
      have hheadmac := huniq head (List.mem_cons_self _ _) hhead
      have huniq' : ∀ other ∈ rest, other ≠ thing →
          s.paramValue other wallboxThingMacAddressParamTypeId ≠ result.macAddress :=
        fun o ho => huniq o (List.mem_cons_of_mem _ ho)
      by_cases h1 : s.paramValue head wallboxThingMacAddressParamTypeId = ""
      · by_cases h2 : s.paramValue head wallboxThingIpAddressParamTypeId = result.address
        · rw [reconcileThing_adopt result head s h1 h2]
          simp only [Bool.false_eq_true, if_false]
          have hthing : thing ≠ head := fun h => hhead h.symm
          exact ih (s.setParamValue head wallboxThingMacAddressParamTypeId result.macAddress)
            hmem' hnodup.2
            (by rw [paramValue_setParamValue]; simpa [hthing] using hmac)
            (by rw [paramValue_setParamValue]; simpa [hthing] using hip)
            (fun o ho hot => by
              have hoh : o ≠ head := fun h => hnodup.1 (h ▸ ho)
              rw [paramValue_setParamValue]
              simpa [hoh] using huniq' o ho hot)
        · rw [reconcileThing_other_address result head s h1 h2]
          simp only [Bool.false_eq_true, if_false]
          exact ih s hmem' hnodup.2 hmac hip huniq'
      · rw [reconcileThing_other_mac result head s h1 hheadmac]
        simp only [Bool.false_eq_true, if_false]
        exact ih s hmem' hnodup.2 hmac hip huniq'

theorem reconcile_split (before after : List KebaDiscoveryResult)
    (result : KebaDiscoveryResult) (s : Plugin) :
    reconcile (before ++ result :: after) s
      = reconcile after (reconcileThings result s.wallboxThings (reconcile before s)) := by
  rw [reconcile_append, reconcile_cons]
  unfold reconcileResult
  rw [wallboxThings_of_sameFrame (sameFrame_reconcile before s)]

/-- C11 fails without uniqueness of MAC addresses.  With two configured wallboxes that have the
same MAC parameter, a result with that MAC address and a new address leaves the IP parameter of
the second one at "192.168.0.11"; and with one wallbox at "192.168.0.10" and two results that
carry its MAC address, the IP parameter ends as the address of the second result, not
"192.168.0.20". -/
theorem address_change_needs_unique_mac :
    (sameMacPlugin.paramValue 2 wallboxThingMacAddressParamTypeId
        = (sampleResult "192.168.0.20" "AA:BB:CC:DD:EE:01").macAddress ∧
      sameMacPlugin.paramValue 2 wallboxThingIpAddressParamTypeId
        ≠ (sampleResult "192.168.0.20" "AA:BB:CC:DD:EE:01").address ∧
      (searchDiscoveryFinished [sampleResult "192.168.0.20" "AA:BB:CC:DD:EE:01"]
        sameMacPlugin).paramValue 2 wallboxThingIpAddressParamTypeId = "192.168.0.11") ∧
    (searchDiscoveryFinished
      [sampleResult "192.168.0.20" "AA:BB:CC:DD:EE:01",
        sampleResult "192.168.0.21" "AA:BB:CC:DD:EE:01"]
      (wallboxPlugin "AA:BB:CC:DD:EE:01" "192.168.0.10" true)).paramValue 1
      wallboxThingIpAddressParamTypeId = "192.168.0.21" := by
  refine ⟨⟨by decide, by decide, by decide⟩, by decide⟩

/-- C11 as amended: let a reconciliation discovery finish with a result whose MAC address equals
the non-empty MAC parameter of a configured wallbox thing and whose address differs from the
thing's IP parameter, and let no other result of the run and no other configured wallbox thing
carry that MAC address (`myThings()` lists each thing once).  Then, when the handler has run,
the thing's IP parameter is the result's address, and if the thing has a session in the roster
the call log contains `setAddress` with the result's address on that session, directly followed
by `getReport2` and `getReport3` on it. -/
theorem reconciliation_follows_address_change (before after : List KebaDiscoveryResult)
    (result : KebaDiscoveryResult) (s : Plugin) (thing : ThingId)
    (hthing : thing ∈ s.wallboxThings) (hnodup : s.myThings.Nodup)
    (hmac : s.paramValue thing wallboxThingMacAddressParamTypeId = result.macAddress)
    (hne : s.paramValue thing wallboxThingMacAddressParamTypeId ≠ "")
    (hip : s.paramValue thing wallboxThingIpAddressParamTypeId ≠ result.address)
    (hthings : ∀ other ∈ s.wallboxThings, other ≠ thing →
      s.paramValue other wallboxThingMacAddressParamTypeId ≠ result.macAddress)
    (hresults : ∀ other ∈ before ++ after, other.macAddress ≠ result.macAddress) :
    (searchDiscoveryFinished (before ++ result :: after) s).paramValue thing
      wallboxThingIpAddressParamTypeId = result.address ∧
    (hashValue s.m_kebaDevices thing 0 ≠ 0 →
      ∃ c1 c2, (searchDiscoveryFinished (before ++ result :: after) s).calls
        = c1 ++
          [(hashValue s.m_kebaDevices thing 0, KeContactCall.setAddress result.address),
           (hashValue s.m_kebaDevices thing 0, KeContactCall.getReport2),
           (hashValue s.m_kebaDevices thing 0, KeContactCall.getReport3)] ++ c2) := by
  have hm : result.macAddress ≠ "" := hmac ▸ hne
  obtain ⟨kb1, kb2⟩ := kept_by_reconcile result.macAddress before s hm
    (fun o ho => hresults o (List.mem_append_left _ ho))
  obtain ⟨hbmac, hbip⟩ := kb1 thing hmac
  have hroster : (reconcile before s).m_kebaDevices = s.m_kebaDevices :=
    (sameFrame_reconcile before s).2.1
  have hmove := reconcileThings_moves result s.wallboxThings (reconcile before s) thing hthing
    (hnodup.filter _) hbmac hm (by rw [hbip]; exact hip)
    (fun o ho hot => kb2 o (hthings o ho hot))
  rw [hroster] at hmove
  obtain ⟨hrip, hrmac, hrcalls⟩ := hmove
  obtain ⟨ka1, _⟩ := kept_by_reconcile result.macAddress after
    (reconcileThings result s.wallboxThings (reconcile before s)) hm
    (fun o ho => hresults o (List.mem_append_right _ ho))
  obtain ⟨_, haip⟩ := ka1 thing hrmac
  obtain ⟨c2, hc2⟩ := calls_reconcile after
    (reconcileThings result s.wallboxThings (reconcile before s))
  constructor
  · show (reconcile (before ++ result :: after) s).paramValue thing
      wallboxThingIpAddressParamTypeId = result.address
    rw [reconcile_split, haip, hrip]
  · intro hk
    refine ⟨(reconcile before s).calls, c2, ?_⟩
    show (reconcile (before ++ result :: after) s).calls = _
    rw [reconcile_split, hc2, (hrcalls hk).1]

theorem reconciliation_follows_address_change_witness :
    (searchDiscoveryFinished
      ([sampleResult "192.168.0.30" "AA:BB:CC:DD:EE:02"]
        ++ sampleResult "192.168.0.20" "AA:BB:CC:DD:EE:01" :: [])
      (wallboxPlugin "AA:BB:CC:DD:EE:01" "192.168.0.10" true)).paramValue 1
      wallboxThingIpAddressParamTypeId
      = (sampleResult "192.168.0.20" "AA:BB:CC:DD:EE:01").address ∧
    (hashValue (wallboxPlugin "AA:BB:CC:DD:EE:01" "192.168.0.10" true).m_kebaDevices 1 0 ≠ 0 →
      ∃ c1 c2, (searchDiscoveryFinished
        ([sampleResult "192.168.0.30" "AA:BB:CC:DD:EE:02"]
          ++ sampleResult "192.168.0.20" "AA:BB:CC:DD:EE:01" :: [])
        (wallboxPlugin "AA:BB:CC:DD:EE:01" "192.168.0.10" true)).calls
        = c1 ++
          [(hashValue (wallboxPlugin "AA:BB:CC:DD:EE:01" "192.168.0.10" true).m_kebaDevices 1 0,
              KeContactCall.setAddress (sampleResult "192.168.0.20" "AA:BB:CC:DD:EE:01").address),
           (hashValue (wallboxPlugin "AA:BB:CC:DD:EE:01" "192.168.0.10" true).m_kebaDevices 1 0,
              KeContactCall.getReport2),
           (hashValue (wallboxPlugin "AA:BB:CC:DD:EE:01" "192.168.0.10" true).m_kebaDevices 1 0,
              KeContactCall.getReport3)] ++ c2) :=
  reconciliation_follows_address_change [sampleResult "192.168.0.30" "AA:BB:CC:DD:EE:02"] []
    (sampleResult "192.168.0.20" "AA:BB:CC:DD:EE:01")
    (wallboxPlugin "AA:BB:CC:DD:EE:01" "192.168.0.10" true) 1
    (by decide) (by decide) (by decide) (by decide) (by decide) (by decide) (by decide)

/-! ## State values written by broadcasts -/

theorem stateValue_setStateValue (s : Plugin) (thing other : ThingId) (st q : StateTypeId)
    (v : Variant) :
    (s.setStateValue thing st v).stateValue other q
      = if other = thing ∧ q = st then v else s.stateValue other q := by
  unfold Plugin.setStateValue Plugin.stateValue
  dsimp only
  by_cases h1 : other = thing
  · by_cases h2 : q = st
    · simp [h1, h2]
    · simp [h1, h2]
  · simp [h1]

theorem setStateValue_onlyThings (s : Plugin) (thing : ThingId) (st : StateTypeId)
    (v : Variant) :
    s.setStateValue thing st v = { s with things := (s.setStateValue thing st v).things } :=
  rfl

theorem setStateValue_params (s : Plugin) (thing other : ThingId) (st : StateTypeId)
    (v : Variant) :
    ((s.setStateValue thing st v).things other).params = (s.things other).params ∧
    ((s.setStateValue thing st v).things other).stateMax = (s.things other).stateMax := by
  unfold Plugin.setStateValue
  dsimp only
  split_ifs <;> exact ⟨rfl, rfl⟩

theorem setDevicePlugState_pluggedIn (E : Env) (thing : ThingId) (plugState : Int)
    (s : Plugin) :
    (setDevicePlugState E thing plugState s).stateValue thing wallboxPluggedInStateTypeId
      = Variant.bool (decide (plugState ≥ 5)) := by
  unfold setDevicePlugState
  dsimp only
  by_cases h : plugState ≥ 5
  · rw [if_pos h, stateValue_setStateValue]
    simp [h]
  · rw [if_neg h, stateValue_setStateValue]
    simp [h]

theorem setDevicePlugState_text_unnamed (E : Env) (thing : ThingId) (plugState : Int)
    (s : Plugin)
    (h1 : plugState ≠ E.PlugStateUnplugged)
    (h2 : plugState ≠ E.PlugStatePluggedOnChargingStation)
    (h3 : plugState ≠ E.PlugStatePluggedOnChargingStationAndPluggedOnEV)
    (h4 : plugState ≠ E.PlugStatePluggedOnChargingStationAndPlugLocked)
    (h5 : plugState ≠ E.PlugStatePluggedOnChargingStationAndPlugLockedAndPluggedOnEV) :
    (setDevicePlugState E thing plugState s).stateValue thing wallboxPlugStateStateTypeId
      = s.stateValue thing wallboxPlugStateStateTypeId := by
  unfold setDevicePlugState
  dsimp only
  rw [if_neg h1, if_neg h2, if_neg h3, if_neg h4, if_neg h5]
  split_ifs <;> rw [stateValue_setStateValue] <;> simp

/-- C27: for every plug-state value, `setDevicePlugState` sets the plugged-in flag to true when
the value is at least 5 and to false otherwise; for a value that is none of the five named plug
states it leaves the plug-state text as it was; and a plug broadcast from the session of a
configured thing runs `setDevicePlugState` on the broadcast's integer value, so both hold for
broadcast values as well. -/
theorem plugged_in_iff_at_least_five (E : Env) (thing : ThingId) (plugState : Int)
    (s : Plugin) :
    (setDevicePlugState E thing plugState s).stateValue thing wallboxPluggedInStateTypeId
      = Variant.bool (decide (plugState ≥ 5)) ∧
    (plugState ≠ E.PlugStateUnplugged →
      plugState ≠ E.PlugStatePluggedOnChargingStation →
      plugState ≠ E.PlugStatePluggedOnChargingStationAndPluggedOnEV →
      plugState ≠ E.PlugStatePluggedOnChargingStationAndPlugLocked →
      plugState ≠ E.PlugStatePluggedOnChargingStationAndPlugLockedAndPluggedOnEV →
      (setDevicePlugState E thing plugState s).stateValue thing wallboxPlugStateStateTypeId
        = s.stateValue thing wallboxPlugStateStateTypeId) ∧
    (∀ keba : KebaId, s.senderThing keba = some thing →
      onBroadcastReceived E keba BroadcastType.BroadcastTypePlug plugState s
        = setDevicePlugState E thing plugState s) := by
  refine ⟨setDevicePlugState_pluggedIn E thing plugState s,
    setDevicePlugState_text_unnamed E thing plugState s, ?_⟩
  intro keba h
  simp [onBroadcastReceived, h]

theorem plugged_in_iff_at_least_five_witness :
    (setDevicePlugState sampleEnv 1 6 onePlugin).stateValue 1 wallboxPluggedInStateTypeId
      = Variant.bool true ∧
    (setDevicePlugState sampleEnv 1 6 onePlugin).stateValue 1 wallboxPlugStateStateTypeId
      = onePlugin.stateValue 1 wallboxPlugStateStateTypeId ∧
    onBroadcastReceived sampleEnv 7 BroadcastType.BroadcastTypePlug 6 onePlugin
      = setDevicePlugState sampleEnv 1 6 onePlugin :=
  ⟨(plugged_in_iff_at_least_five sampleEnv 1 6 onePlugin).1,
   (plugged_in_iff_at_least_five sampleEnv 1 6 onePlugin).2.1 (by decide) (by decide)
     (by decide) (by decide) (by decide),
   (plugged_in_iff_at_least_five sampleEnv 1 6 onePlugin).2.2 7 (by decide)⟩

theorem writesOnly_refl (thing : ThingId) (allowed : List StateTypeId) (s : Plugin) :
    writesOnly thing allowed s s :=
  ⟨⟨s.things, rfl⟩, fun _ => ⟨rfl, rfl, rfl⟩, fun _ _ _ => rfl⟩

theorem writesOnly_trans {thing : ThingId} {allowed : List StateTypeId} {s t u : Plugin}
    (h1 : writesOnly thing allowed s t) (h2 : writesOnly thing allowed t u) :
    writesOnly thing allowed s u := by
  obtain ⟨⟨f, hf⟩, hp1, hs1⟩ := h1
  obtain ⟨⟨g, hg⟩, hp2, hs2⟩ := h2
  refine ⟨⟨g, ?_⟩, fun other => ?_, fun other st h => ?_⟩
  · rw [hg, hf]
  · exact ⟨(hp2 other).1.trans (hp1 other).1, (hp2 other).2.1.trans (hp1 other).2.1,
      (hp2 other).2.2.trans (hp1 other).2.2⟩
  · exact (hs2 other st h).trans (hs1 other st h)

theorem writesOnly_setStateValue (thing : ThingId) (allowed : List StateTypeId) (s : Plugin)
    (st : StateTypeId) (v : Variant) (h : st ∈ allowed) :
    writesOnly thing allowed s (s.setStateValue thing st v) := by
  refine ⟨⟨_, rfl⟩, fun other => ?_, fun other q hq => ?_⟩
  · unfold Plugin.setStateValue
    dsimp only
    split_ifs <;> exact ⟨rfl, rfl, rfl⟩
  · rw [stateValue_setStateValue]
    have : ¬ (other = thing ∧ q = st) := fun hc => hq ⟨hc.1, hc.2 ▸ h⟩
    rw [if_neg this]

theorem writesOnly_setDevicePlugState (E : Env) (thing : ThingId) (plugState : Int)
    (s : Plugin) :
    writesOnly thing [wallboxPlugStateStateTypeId, wallboxPluggedInStateTypeId] s
      (setDevicePlugState E thing plugState s) := by
  have h1 : ∀ (t : Plugin) (v : Variant),
      writesOnly thing [wallboxPlugStateStateTypeId, wallboxPluggedInStateTypeId] t
        (t.setStateValue thing wallboxPlugStateStateTypeId v) :=
    fun t v => writesOnly_setStateValue thing _ t _ v (by simp)
  have h2 : ∀ (t : Plugin) (v : Variant),
      writesOnly thing [wallboxPlugStateStateTypeId, wallboxPluggedInStateTypeId] t
        (t.setStateValue thing wallboxPluggedInStateTypeId v) :=
    fun t v => writesOnly_setStateValue thing _ t _ v (by simp)
  unfold setDevicePlugState
  dsimp only
  split_ifs <;>
    first
      | exact writesOnly_trans (h1 s _) (h2 _ _)
      | exact h2 s _

theorem writesOnly_setDeviceState (E : Env) (thing : ThingId) (state : Int) (s : Plugin) :
    writesOnly thing [wallboxActivityStateTypeId, wallboxChargingStateTypeId] s
      (setDeviceState E thing state s) := by
  have h1 : ∀ (t : Plugin) (v : Variant),
      writesOnly thing [wallboxActivityStateTypeId, wallboxChargingStateTypeId] t
        (t.setStateValue thing wallboxActivityStateTypeId v) :=
    fun t v => writesOnly_setStateValue thing _ t _ v (by simp)
  have h2 : ∀ (t : Plugin) (v : Variant),
      writesOnly thing [wallboxActivityStateTypeId, wallboxChargingStateTypeId] t
        (t.setStateValue thing wallboxChargingStateTypeId v) :=
    fun t v => writesOnly_setStateValue thing _ t _ v (by simp)
  unfold setDeviceState
  dsimp only
  split_ifs <;>
    first
      | exact writesOnly_trans (h1 s _) (h2 _ _)
      | exact h2 s _

theorem setDeviceState_charging (E : Env) (thing : ThingId) (state : Int) (s : Plugin) :
    (setDeviceState E thing state s).stateValue thing wallboxChargingStateTypeId
      = Variant.bool (decide (state = E.StateCharging)) := by
  unfold setDeviceState
  dsimp only
  rw [stateValue_setStateValue]
  simp

theorem onBroadcastReceived_writesOnly (E : Env) (keba : KebaId) (thing : ThingId)
    (type : BroadcastType) (content : Int) (s : Plugin)
    (hthing : s.senderThing keba = some thing) :
    writesOnly thing (broadcastStates type) s (onBroadcastReceived E keba type content s) := by
  unfold onBroadcastReceived
  rw [hthing]
  cases type with
  | BroadcastTypePlug => exact writesOnly_setDevicePlugState E thing content s
  | BroadcastTypeInput => exact writesOnly_setStateValue thing _ s _ _ (by simp [broadcastStates])
  | BroadcastTypeEPres => exact writesOnly_setStateValue thing _ s _ _ (by simp [broadcastStates])
  | BroadcastTypeState => exact writesOnly_setDeviceState E thing content s
  | BroadcastTypeMaxCurr => exact writesOnly_refl thing _ s
  | BroadcastTypeEnableSys =>
    exact writesOnly_setStateValue thing _ s _ _ (by simp [broadcastStates])
  | BroadcastTypeOther n => exact writesOnly_refl thing _ s

/-- C22: a broadcast sent by the session of a configured thing changes nothing but state values
of that thing, and only those of the broadcast's kind (plug: plug-state text and plugged-in
flag; input: input flag; energy-present: session energy; state: activity text and charging
flag; system-enable: system-enabled flag; max-current: none).  All other members of the plugin,
`m_asyncActions` among them, all parameters and state maxima stay as they were.  The input flag
becomes true exactly for the value 1, the charging flag exactly for the state `StateCharging`,
the system-enabled flag exactly for a non-zero value, the plugged-in flag exactly for a value
of at least 5. -/
theorem broadcast_writes_only_its_fields (E : Env) (keba : KebaId) (thing : ThingId)
    (type : BroadcastType) (content : Int) (s : Plugin)
    (hthing : s.senderThing keba = some thing) :
    writesOnly thing (broadcastStates type) s (onBroadcastReceived E keba type content s) ∧
    (onBroadcastReceived E keba type content s).m_asyncActions = s.m_asyncActions ∧
    (onBroadcastReceived E keba BroadcastType.BroadcastTypeInput content s).stateValue thing
      wallboxInputStateTypeId = Variant.bool (decide (content = 1)) ∧
    (onBroadcastReceived E keba BroadcastType.BroadcastTypeState content s).stateValue thing
      wallboxChargingStateTypeId = Variant.bool (decide (content = E.StateCharging)) ∧
    (onBroadcastReceived E keba BroadcastType.BroadcastTypeEnableSys content s).stateValue thing
      wallboxSystemEnabledStateTypeId = Variant.bool (decide (content ≠ 0)) ∧
    (onBroadcastReceived E keba BroadcastType.BroadcastTypePlug content s).stateValue thing
      wallboxPluggedInStateTypeId = Variant.bool (decide (content ≥ 5)) := by
  have hw := onBroadcastReceived_writesOnly E keba thing type content s hthing
  refine ⟨hw, ?_, ?_, ?_, ?_, ?_⟩
  · obtain ⟨⟨f, hf⟩, _, _⟩ := hw
    rw [hf]
  · simp only [onBroadcastReceived, hthing]
    rw [stateValue_setStateValue]
    simp
  · simp only [onBroadcastReceived, hthing]
    exact setDeviceState_charging E thing content s
  · simp only [onBroadcastReceived, hthing]
    rw [stateValue_setStateValue]
    simp
  · simp only [onBroadcastReceived, hthing]
    exact setDevicePlugState_pluggedIn E thing content s

theorem broadcast_writes_only_its_fields_witness :
    writesOnly 1 (broadcastStates BroadcastType.BroadcastTypeState) pendingPlugin
      (onBroadcastReceived sampleEnv 7 BroadcastType.BroadcastTypeState 3 pendingPlugin) ∧
    (onBroadcastReceived sampleEnv 7 BroadcastType.BroadcastTypeState 3
      pendingPlugin).m_asyncActions = pendingPlugin.m_asyncActions ∧
    (onBroadcastReceived sampleEnv 7 BroadcastType.BroadcastTypeInput 3 pendingPlugin).stateValue
      1 wallboxInputStateTypeId = Variant.bool (decide ((3 : Int) = 1)) ∧
    (onBroadcastReceived sampleEnv 7 BroadcastType.BroadcastTypeState 3 pendingPlugin).stateValue
      1 wallboxChargingStateTypeId
      = Variant.bool (decide ((3 : Int) = sampleEnv.StateCharging)) ∧
    (onBroadcastReceived sampleEnv 7 BroadcastType.BroadcastTypeEnableSys 3
      pendingPlugin).stateValue 1 wallboxSystemEnabledStateTypeId
      = Variant.bool (decide ((3 : Int) ≠ 0)) ∧
    (onBroadcastReceived sampleEnv 7 BroadcastType.BroadcastTypePlug 3 pendingPlugin).stateValue
      1 wallboxPluggedInStateTypeId = Variant.bool (decide ((3 : Int) ≥ 5)) :=
  broadcast_writes_only_its_fields sampleEnv 7 1 BroadcastType.BroadcastTypeState 3
    pendingPlugin (by decide)

/-! ## Removal of a thing -/

theorem hashRemove_of_not_contains {V : Type} (h : List (Nat × V)) (k : Nat)
    (hk : hashContains h k = false) : hashRemove h k = h := by
  unfold hashRemove
  rw [List.filter_eq_self]
  intro p hp
  unfold hashContains at hk
  rw [List.any_eq_false] at hk
  have := hk p hp
  simpa using this

/-- C23: `thingRemoved` for a wallbox thing takes the thing's session out of the roster and
keeps the other roster entries; when `myThings()` is empty at that moment it also resets the
data layer and both timers to none, and when other things are configured it leaves the data
layer and both timers as they were. -/
theorem thing_removed_releases_when_last (thing : ThingId) (s : Plugin)
    (hclass : (s.things thing).thingClassId = wallboxThingClassId) :
    (thingRemoved thing s).m_kebaDevices = hashRemove s.m_kebaDevices thing ∧
    hashContains (thingRemoved thing s).m_kebaDevices thing = false ∧
    (s.myThings = [] →
      (thingRemoved thing s).m_kebaDataLayer = false ∧
      (thingRemoved thing s).m_reconnectTimer = false ∧
      (thingRemoved thing s).m_updateTimer = false) ∧
    (s.myThings ≠ [] →
      (thingRemoved thing s).m_kebaDataLayer = s.m_kebaDataLayer ∧
      (thingRemoved thing s).m_reconnectTimer = s.m_reconnectTimer ∧
      (thingRemoved thing s).m_updateTimer = s.m_updateTimer) := by
  have hroster : (thingRemoved thing s).m_kebaDevices = hashRemove s.m_kebaDevices thing := by
    by_cases hc : hashContains s.m_kebaDevices thing = true
    · by_cases he : s.myThings = [] <;> simp [thingRemoved, hclass, hc, he, Plugin.call]
    · have hc' : hashContains s.m_kebaDevices thing = false := by simpa using hc
      rw [hashRemove_of_not_contains _ _ hc']
      by_cases he : s.myThings = [] <;> simp [thingRemoved, hc', he]
  refine ⟨hroster, ?_, ?_, ?_⟩
  · rw [hroster]
    exact hashContains_hashRemove _ _
  · intro hempty
    by_cases hc : hashContains s.m_kebaDevices thing = true <;>
      simp [thingRemoved, hclass, hc, hempty, Plugin.call]
  · intro hne
    by_cases hc : hashContains s.m_kebaDevices thing = true <;>
      simp [thingRemoved, hclass, hc, hne, Plugin.call]

theorem thing_removed_releases_when_last_witness :
    (thingRemoved 1 { pendingPlugin with myThings := [] }).m_kebaDevices
      = hashRemove ({ pendingPlugin with myThings := [] } : Plugin).m_kebaDevices 1 ∧
    hashContains (thingRemoved 1 { pendingPlugin with myThings := [] }).m_kebaDevices 1 = false ∧
    ((thingRemoved 1 { pendingPlugin with myThings := [] }).m_kebaDataLayer = false ∧
      (thingRemoved 1 { pendingPlugin with myThings := [] }).m_reconnectTimer = false ∧
      (thingRemoved 1 { pendingPlugin with myThings := [] }).m_updateTimer = false) ∧
    ((thingRemoved 2 { sameMacPlugin with myThings := [1] }).m_kebaDataLayer
        = ({ sameMacPlugin with myThings := [1] } : Plugin).m_kebaDataLayer ∧
      (thingRemoved 2 { sameMacPlugin with myThings := [1] }).m_reconnectTimer
        = ({ sameMacPlugin with myThings := [1] } : Plugin).m_reconnectTimer ∧
      (thingRemoved 2 { sameMacPlugin with myThings := [1] }).m_updateTimer
        = ({ sameMacPlugin with myThings := [1] } : Plugin).m_updateTimer) :=
  ⟨(thing_removed_releases_when_last 1 { pendingPlugin with myThings := [] } (by decide)).1,
   (thing_removed_releases_when_last 1 { pendingPlugin with myThings := [] } (by decide)).2.1,
   (thing_removed_releases_when_last 1 { pendingPlugin with myThings := [] }
     (by decide)).2.2.1 rfl,
   (thing_removed_releases_when_last 2 { sameMacPlugin with myThings := [1] }
     (by decide)).2.2.2 (by decide)⟩

/-! ## Start of the reconciliation discovery -/

theorem searchDiscoveryFinished_clears (results : List KebaDiscoveryResult) (s : Plugin) :
    (searchDiscoveryFinished results s).m_runningDiscovery = 0 := rfl

theorem searchNetworkDevices_not_started (s : Plugin) :
    (searchNetworkDevices s).startedDiscoveries = s.startedDiscoveries := by
  unfold searchNetworkDevices
  split_ifs <;> rfl

/-- C24: called with no discovery running and the data layer present, `searchNetworkDevices`
creates discovery `1` and makes it `m_runningDiscovery`, but does not start it: the discovery is
not among the started ones, while `discoverThings` in the same state does start the discovery
it creates.  A discovery that is never started never finishes, and as long as the marker is set
a further `searchNetworkDevices` changes nothing. -/
theorem reconciliation_discovery_is_not_started :
    (wallboxPlugin "" "192.168.0.10" true).m_runningDiscovery = 0 ∧
    (wallboxPlugin "" "192.168.0.10" true).m_kebaDataLayer = true ∧
    (searchNetworkDevices (wallboxPlugin "" "192.168.0.10" true)).m_runningDiscovery = 1 ∧
    (searchNetworkDevices (wallboxPlugin "" "192.168.0.10" true)).ownDiscoveries = [1] ∧
    (searchNetworkDevices (wallboxPlugin "" "192.168.0.10" true)).startedDiscoveries = [] ∧
    (discoverThings 3 wallboxThingClassId true true
      (wallboxPlugin "" "192.168.0.10" true)).startedDiscoveries = [1] ∧
    searchNetworkDevices (searchNetworkDevices (wallboxPlugin "" "192.168.0.10" true))
      = searchNetworkDevices (wallboxPlugin "" "192.168.0.10" true) := by
  refine ⟨by decide, by decide, by decide, by decide, by decide, by decide, ?_⟩
  exact searchNetworkDevices_running _ (by decide)

/-! ## Phase count -/

theorem onReportThreeReceived_phaseCount (s : Plugin) (keba : KebaId) (thing : ThingId)
    (r : ReportThree) (hthing : s.senderThing keba = some thing)
    (hserial : r.serialNumber = s.paramValue thing wallboxThingSerialNumberParamTypeId) :
    (onReportThreeReceived keba r s).stateValue thing wallboxPhaseCountStateTypeId =
      if r.currentPhase1 = 0 ∧ r.currentPhase2 = 0 ∧ r.currentPhase3 = 0 then
        s.stateValue thing wallboxPhaseCountStateTypeId
      else Variant.uint (nonZeroPhases r) := by
  unfold onReportThreeReceived
  simp only [hthing, hserial, if_true]
  by_cases hz : r.currentPhase1 = 0 ∧ r.currentPhase2 = 0 ∧ r.currentPhase3 = 0
  · rw [if_neg (not_not.mpr hz), if_pos hz]
    simp [stateValue_setStateValue]
  · rw [if_pos hz, if_neg hz, stateValue_setStateValue]
    simp only [and_self, if_true, nonZeroPhases, Nat.zero_add]
    congr 1
    split_ifs <;> rfl

theorem nonZeroPhases_bounds (r : ReportThree)
    (h : ¬ (r.currentPhase1 = 0 ∧ r.currentPhase2 = 0 ∧ r.currentPhase3 = 0)) :
    1 ≤ nonZeroPhases r ∧ nonZeroPhases r ≤ 3 := by
  unfold nonZeroPhases
  by_cases h1 : r.currentPhase1 = 0 <;> by_cases h2 : r.currentPhase2 = 0 <;>
    by_cases h3 : r.currentPhase3 = 0 <;> simp_all

/-- C25: for a report 3 whose serial number matches the thing's serial-number parameter, the
phase-count state becomes the number of non-zero phase currents, a value from 1 to 3, when at
least one of the three phase currents is non-zero, and keeps its value when all three are
zero. -/
theorem report_three_counts_active_phases (s : Plugin) (keba : KebaId) (thing : ThingId)
    (r : ReportThree) (hthing : s.senderThing keba = some thing)
    (hserial : r.serialNumber = s.paramValue thing wallboxThingSerialNumberParamTypeId) :
    (¬ (r.currentPhase1 = 0 ∧ r.currentPhase2 = 0 ∧ r.currentPhase3 = 0) →
      (onReportThreeReceived keba r s).stateValue thing wallboxPhaseCountStateTypeId
        = Variant.uint (nonZeroPhases r) ∧
      1 ≤ nonZeroPhases r ∧ nonZeroPhases r ≤ 3) ∧
    ((r.currentPhase1 = 0 ∧ r.currentPhase2 = 0 ∧ r.currentPhase3 = 0) →
      (onReportThreeReceived keba r s).stateValue thing wallboxPhaseCountStateTypeId
        = s.stateValue thing wallboxPhaseCountStateTypeId) := by
  have h := onReportThreeReceived_phaseCount s keba thing r hthing hserial
  constructor
  · intro hz
    rw [h, if_neg hz]
    exact ⟨rfl, nonZeroPhases_bounds r hz⟩
  · intro hz
    rw [h, if_pos hz]

theorem report_three_counts_active_phases_witness :
    ((onReportThreeReceived 7 (sampleReportThree "17") onePlugin).stateValue 1
        wallboxPhaseCountStateTypeId = Variant.uint (nonZeroPhases (sampleReportThree "17")) ∧
      1 ≤ nonZeroPhases (sampleReportThree "17") ∧ nonZeroPhases (sampleReportThree "17") ≤ 3) ∧
    nonZeroPhases (sampleReportThree "17") = 1 :=
  ⟨(report_three_counts_active_phases onePlugin 7 1 (sampleReportThree "17") (by decide)
      (by decide)).1 (by simp [sampleReportThree]),
   by simp [nonZeroPhases, sampleReportThree]⟩

/-! ## Actions without a usable session -/

/-- C26: `executeAction` for a wallbox thing that has no session in the roster, or whose session
is not reachable, finishes the action with `ThingErrorHardwareNotAvailable` and does nothing
else: no method is called on any session and `m_asyncActions` is left as it was. -/
theorem execute_action_needs_reachable_session (info : ActionInfo)
    (reply : KeContactCall → RequestId) (s : Plugin)
    (hclass : (s.things info.thing).thingClassId = wallboxThingClassId)
    (hsession : hashValue s.m_kebaDevices info.thing 0 = 0 ∨
      s.kebaReachable (hashValue s.m_kebaDevices info.thing 0) = false) :
    executeAction info reply s = s.finish info.id ThingErrorHardwareNotAvailable ∧
    (executeAction info reply s).finished
      = s.finished ++ [(info.id, ThingErrorHardwareNotAvailable)] ∧
    (executeAction info reply s).calls = s.calls ∧
    (executeAction info reply s).m_asyncActions = s.m_asyncActions := by
  have h : executeAction info reply s = s.finish info.id ThingErrorHardwareNotAvailable := by
    unfold executeAction
    dsimp only
    rw [if_pos hclass]
    by_cases hk : hashValue s.m_kebaDevices info.thing 0 = 0
    · rw [if_pos hk]
    · rw [if_neg hk]
      rcases hsession with h | h
      · exact absurd h hk
      · rw [if_pos h]
  rw [h]
  exact ⟨rfl, rfl, rfl, rfl⟩

theorem execute_action_needs_reachable_session_witness :
    executeAction sampleActionInfo (fun _ => 9)
        (wallboxPlugin "AA:BB:CC:DD:EE:01" "192.168.0.10" false)
      = (wallboxPlugin "AA:BB:CC:DD:EE:01" "192.168.0.10" false).finish sampleActionInfo.id
          ThingErrorHardwareNotAvailable ∧
    (executeAction sampleActionInfo (fun _ => 9)
        (wallboxPlugin "AA:BB:CC:DD:EE:01" "192.168.0.10" false)).finished
      = (wallboxPlugin "AA:BB:CC:DD:EE:01" "192.168.0.10" false).finished
          ++ [(sampleActionInfo.id, ThingErrorHardwareNotAvailable)] ∧
    (executeAction sampleActionInfo (fun _ => 9)
        (wallboxPlugin "AA:BB:CC:DD:EE:01" "192.168.0.10" false)).calls
      = (wallboxPlugin "AA:BB:CC:DD:EE:01" "192.168.0.10" false).calls ∧
    (executeAction sampleActionInfo (fun _ => 9)
        (wallboxPlugin "AA:BB:CC:DD:EE:01" "192.168.0.10" false)).m_asyncActions
      = (wallboxPlugin "AA:BB:CC:DD:EE:01" "192.168.0.10" false).m_asyncActions :=
  execute_action_needs_reachable_session sampleActionInfo (fun _ => 9)
    (wallboxPlugin "AA:BB:CC:DD:EE:01" "192.168.0.10" false) (by decide)
    (Or.inr (by decide))

/-! ## Numeric values exchanged with the session -/

theorem stateValue_setStateMaxValue (s : Plugin) (thing other : ThingId) (st q : StateTypeId)
    (v : Variant) : (s.setStateMaxValue thing st v).stateValue other q = s.stateValue other q := by
  unfold Plugin.setStateMaxValue Plugin.stateValue
  dsimp only
  split_ifs <;> rfl

theorem toInt32_small (n : Nat) (h : n < 2 ^ 31) : toInt32 n = (n : Int) := by
  unfold toInt32
  have h1 : n % 2 ^ 32 = n := Nat.mod_eq_of_lt (by omega)
  rw [h1, if_pos h]

theorem onReportTwoReceived_values (E : Env) (s : Plugin) (keba : KebaId) (thing : ThingId)
    (r : ReportTwo) (hthing : s.senderThing keba = some thing)
    (hserial : r.serialNumber = s.paramValue thing wallboxThingSerialNumberParamTypeId) :
    (onReportTwoReceived E keba r s).stateValue thing wallboxMaxChargingCurrentStateTypeId
      = Variant.int (E.qRound r.currentUser) ∧
    (onReportTwoReceived E keba r s).stateValue thing wallboxMaxChargingCurrentPercentStateTypeId
      = Variant.double r.maxCurrentPercentage ∧
    (onReportTwoReceived E keba r s).stateValue thing wallboxMaxChargingCurrentHardwareStateTypeId
      = Variant.double r.currentHardwareLimitation ∧
    (onReportTwoReceived E keba r s).stateValue thing wallboxError1StateTypeId
      = Variant.int r.error1 ∧
    (onReportTwoReceived E keba r s).stateValue thing wallboxError2StateTypeId
      = Variant.int r.error2 ∧
    (onReportTwoReceived E keba r s).stateValue thing wallboxUptimeStateTypeId
      = Variant.int (Int.tdiv r.seconds 60) := by
  unfold onReportTwoReceived
  simp only [hthing, hserial, if_true]
  split_ifs <;>
    simp [stateValue_setStateValue, stateValue_setStateMaxValue]

theorem onReportThreeReceived_values (s : Plugin) (keba : KebaId) (thing : ThingId)
    (r : ReportThree) (hthing : s.senderThing keba = some thing)
    (hserial : r.serialNumber = s.paramValue thing wallboxThingSerialNumberParamTypeId) :
    (onReportThreeReceived keba r s).stateValue thing wallboxCurrentPhaseAStateTypeId
      = Variant.double r.currentPhase1 ∧
    (onReportThreeReceived keba r s).stateValue thing wallboxCurrentPhaseBStateTypeId
      = Variant.double r.currentPhase2 ∧
    (onReportThreeReceived keba r s).stateValue thing wallboxCurrentPhaseCStateTypeId
      = Variant.double r.currentPhase3 ∧
    (onReportThreeReceived keba r s).stateValue thing wallboxVoltagePhaseAStateTypeId
      = Variant.int r.voltagePhase1 ∧
    (onReportThreeReceived keba r s).stateValue thing wallboxVoltagePhaseBStateTypeId
      = Variant.int r.voltagePhase2 ∧
    (onReportThreeReceived keba r s).stateValue thing wallboxVoltagePhaseCStateTypeId
      = Variant.int r.voltagePhase3 ∧
    (onReportThreeReceived keba r s).stateValue thing wallboxCurrentPowerStateTypeId
      = Variant.double r.power ∧
    (onReportThreeReceived keba r s).stateValue thing wallboxSessionEnergyStateTypeId
      = Variant.double r.energySession ∧
    (onReportThreeReceived keba r s).stateValue thing wallboxPowerFactorStateTypeId
      = Variant.double r.powerFactor ∧
    (onReportThreeReceived keba r s).stateValue thing wallboxTotalEnergyConsumedStateTypeId
      = Variant.double r.energyTotal := by
  unfold onReportThreeReceived
  simp only [hthing, hserial, if_true]
  split_ifs <;> simp [stateValue_setStateValue]

/-- C21 fails: for a max-charging-current action of 16 (ampere) the plugin passes 16000
(milliampere) to `setMaxAmpereGeneral`, and for an energy-present broadcast with value 25000 it
stores the session energy 5/2. -/
theorem current_and_energy_are_rescaled :
    sampleActionInfo.action.maxChargingCurrent = 16 ∧
    actionCall sampleActionInfo.action = some (KeContactCall.setMaxAmpereGeneral 16000) ∧
    (executeAction sampleActionInfo (fun _ => 9)
      (wallboxPlugin "AA:BB:CC:DD:EE:01" "192.168.0.10" true)).calls
      = [(7, KeContactCall.setMaxAmpereGeneral 16000)] ∧
    (onBroadcastReceived sampleEnv 7 BroadcastType.BroadcastTypeEPres 25000 onePlugin).stateValue
      1 wallboxSessionEnergyStateTypeId = Variant.double (5 / 2) := by
  refine ⟨rfl, by decide, by decide, ?_⟩
  have hthing : onePlugin.senderThing 7 = some 1 := by decide
  simp only [onBroadcastReceived, hthing]
  rw [stateValue_setStateValue]
  norm_num

/-- C21 as amended: the plugin converts units in known places and stores the other numeric
values as received.  The current passed to `setMaxAmpereGeneral` is the action's ampere value
times 1000 (as a 32-bit `int`, the exact product below 2^31); the session energy stored from an
energy-present broadcast is the received integer divided by 10000; from a report 2 with matching
serial number the max-charging-current state is `qRound` of the user current and the uptime is
the seconds divided by 60, while max-current percentage, hardware current limit and both error
codes are stored as received; from a report 3 with matching serial number the phase currents,
phase voltages, power, session energy, power factor and total energy are stored as received. -/
theorem numeric_values_conversions (E : Env) (s : Plugin) (keba : KebaId) (thing : ThingId)
    (r2 : ReportTwo) (r3 : ReportThree) (content : Int) (action : Action)
    (hthing : s.senderThing keba = some thing)
    (h2 : r2.serialNumber = s.paramValue thing wallboxThingSerialNumberParamTypeId)
    (h3 : r3.serialNumber = s.paramValue thing wallboxThingSerialNumberParamTypeId)
    (haction : action.actionTypeId = ActionTypeId.wallboxMaxChargingCurrentActionTypeId) :
    actionCall action
      = some (KeContactCall.setMaxAmpereGeneral (toInt32 (action.maxChargingCurrent * 1000))) ∧
    (action.maxChargingCurrent * 1000 < 2 ^ 31 →
      toInt32 (action.maxChargingCurrent * 1000) = (action.maxChargingCurrent : Int) * 1000) ∧
    (onBroadcastReceived E keba BroadcastType.BroadcastTypeEPres content s).stateValue thing
      wallboxSessionEnergyStateTypeId = Variant.double ((content : ℚ) / 10000) ∧
    ((onReportTwoReceived E keba r2 s).stateValue thing wallboxMaxChargingCurrentStateTypeId
        = Variant.int (E.qRound r2.currentUser) ∧
      (onReportTwoReceived E keba r2 s).stateValue thing
        wallboxMaxChargingCurrentPercentStateTypeId = Variant.double r2.maxCurrentPercentage ∧
      (onReportTwoReceived E keba r2 s).stateValue thing
        wallboxMaxChargingCurrentHardwareStateTypeId
        = Variant.double r2.currentHardwareLimitation ∧
      (onReportTwoReceived E keba r2 s).stateValue thing wallboxError1StateTypeId
        = Variant.int r2.error1 ∧
      (onReportTwoReceived E keba r2 s).stateValue thing wallboxError2StateTypeId
        = Variant.int r2.error2 ∧
      (onReportTwoReceived E keba r2 s).stateValue thing wallboxUptimeStateTypeId
        = Variant.int (Int.tdiv r2.seconds 60)) ∧
    ((onReportThreeReceived keba r3 s).stateValue thing wallboxCurrentPhaseAStateTypeId
        = Variant.double r3.currentPhase1 ∧
      (onReportThreeReceived keba r3 s).stateValue thing wallboxCurrentPhaseBStateTypeId
        = Variant.double r3.currentPhase2 ∧
      (onReportThreeReceived keba r3 s).stateValue thing wallboxCurrentPhaseCStateTypeId
        = Variant.double r3.currentPhase3 ∧
      (onReportThreeReceived keba r3 s).stateValue thing wallboxVoltagePhaseAStateTypeId
        = Variant.int r3.voltagePhase1 ∧
      (onReportThreeReceived keba r3 s).stateValue thing wallboxVoltagePhaseBStateTypeId
        = Variant.int r3.voltagePhase2 ∧
      (onReportThreeReceived keba r3 s).stateValue thing wallboxVoltagePhaseCStateTypeId
        = Variant.int r3.voltagePhase3 ∧
      (onReportThreeReceived keba r3 s).stateValue thing wallboxCurrentPowerStateTypeId
        = Variant.double r3.power ∧
      (onReportThreeReceived keba r3 s).stateValue thing wallboxSessionEnergyStateTypeId
        = Variant.double r3.energySession ∧
      (onReportThreeReceived keba r3 s).stateValue thing wallboxPowerFactorStateTypeId
        = Variant.double r3.powerFactor ∧
      (onReportThreeReceived keba r3 s).stateValue thing wallboxTotalEnergyConsumedStateTypeId
        = Variant.double r3.energyTotal) := by
  refine ⟨?_, ?_, ?_, onReportTwoReceived_values E s keba thing r2 hthing h2,
    onReportThreeReceived_values s keba thing r3 hthing h3⟩
  · simp [actionCall, haction]
  · intro h
    rw [toInt32_small _ h]
    push_cast
    rfl
  · simp only [onBroadcastReceived, hthing]
    rw [stateValue_setStateValue]
    simp

theorem numeric_values_conversions_witness :
    actionCall (sampleAction 16)
      = some (KeContactCall.setMaxAmpereGeneral
          (toInt32 ((sampleAction 16).maxChargingCurrent * 1000))) ∧
    (onBroadcastReceived sampleEnv 7 BroadcastType.BroadcastTypeEPres 25000 onePlugin).stateValue
      1 wallboxSessionEnergyStateTypeId = Variant.double (((25000 : Int) : ℚ) / 10000) ∧
    (onReportTwoReceived sampleEnv 7 (sampleReportTwo "17") onePlugin).stateValue 1
      wallboxMaxChargingCurrentStateTypeId
      = Variant.int (sampleEnv.qRound (sampleReportTwo "17").currentUser) :=
  ⟨(numeric_values_conversions sampleEnv onePlugin 7 1 (sampleReportTwo "17")
      (sampleReportThree "17") 25000 (sampleAction 16) (by decide) (by decide) (by decide)
      (by decide)).1,
   (numeric_values_conversions sampleEnv onePlugin 7 1 (sampleReportTwo "17")
      (sampleReportThree "17") 25000 (sampleAction 16) (by decide) (by decide) (by decide)
      (by decide)).2.2.1,
   (numeric_values_conversions sampleEnv onePlugin 7 1 (sampleReportTwo "17")
      (sampleReportThree "17") 25000 (sampleAction 16) (by decide) (by decide) (by decide)
      (by decide)).2.2.2.1.1⟩

end Keba
